import Mathlib

/-
  Verification of the Strada language runtime (src/runtime/strada_runtime.c)
  against its natural-language specification.

  The development is a shallow embedding of the C runtime:
  * `StradaValue` mirrors the tagged union `StradaValue` (type tag, payload,
    `blessed_package`).  The C `refcount` field and the malloc/free discipline
    are modelled by dedicated transition systems (`RC` for the single-value
    incref/decref lifecycle, `DS` for destructor dispatch), since reference
    counts are meaningless on immutable trees.
  * C `int64_t` becomes `Int`, C `double` becomes `Rat` (the claims under
    study do not depend on IEEE-754 rounding), C strings become `String`,
    and hash keys become `List Nat` (the bytes of the NUL-terminated key).
  * Fallible/partial C control flow (longjmp, exit, infinite recursion)
    becomes `Option` / explicit outcome types / fuel-indexed recursion where
    `none` marks a computation that has not finished.
-/

/- ===== Value model (struct StradaValue) =====
   Each constructor carries the payload of one `StradaType` variant plus the
   `blessed_package` pointer (`Option String`, `none` = NULL).  Payloads that
   are raw OS handles (FILE*, regex_t*, struct data, C pointers) or that are
   modelled by a dedicated system (closures, C9) are left without fields. -/
inductive StradaValue : Type where
  | svUndef (blessed : Option String)
  | svInt (iv : Int) (blessed : Option String)
  | svNum (nv : Rat) (blessed : Option String)
  | svStr (pv : String) (blessed : Option String)
  | svArray (elements : List StradaValue) (blessed : Option String)
  | svHash (num_buckets : Nat) (buckets : List (List (List Nat × StradaValue)))
      (blessed : Option String)
  | svRef (rv : Option StradaValue) (blessed : Option String)
  | svFileHandle (blessed : Option String)
  | svRegex (blessed : Option String)
  | svSocket (sockfd : Int) (blessed : Option String)
  | svCStruct (blessed : Option String)
  | svCPointer (blessed : Option String)
  | svClosure (blessed : Option String)

open StradaValue

/-- The `blessed_package` field of a value (any variant carries it in C). -/
def blessed_package : StradaValue → Option String
  | svUndef b => b
  | svInt _ b => b
  | svNum _ b => b
  | svStr _ b => b
  | svArray _ b => b
  | svHash _ _ b => b
  | svRef _ b => b
  | svFileHandle b => b
  | svRegex b => b
  | svSocket _ b => b
  | svCStruct b => b
  | svCPointer b => b
  | svClosure b => b

/-- Whether the value's type tag is STRADA_REF. -/
def isRefType : StradaValue → Bool
  | svRef _ _ => true
  | _ => false

/-- strada_new_undef: fresh Undef, `blessed_package = NULL` (refcount 1,
    see `RC.initial`). -/
def strada_new_undef : StradaValue := svUndef none

/-- strada_new_int. -/
def strada_new_int (i : Int) : StradaValue := svInt i none

/-- strada_new_str. -/
def strada_new_str (s : String) : StradaValue := svStr s none

/- ===== Type conversion (strada_to_int / strada_to_num / strada_to_str /
   strada_to_bool) ===== -/

/-- The isspace bytes skipped by atoll/atof on the C locale. -/
def isSpaceByte (c : Char) : Bool :=
  c = ' ' || c = '\t' || c = '\n' || c = '\x0b' || c = '\x0c' || c = '\r'

/-- Leading decimal digits accumulated into a number (the digit loop shared
    by the C library's atoll/atof). -/
def leadingDigits : List Char → Nat → Nat
  | c :: cs, acc => if c.isDigit then leadingDigits cs (acc * 10 + (c.toNat - 48)) else acc
  | [], acc => acc

/-- atoll(3): skip whitespace, optional sign, leading digits, ignore the
    rest; non-numeric input yields 0.  (Overflow clamping is not modelled;
    no claim exercises it.) -/
def atoll (s : String) : Int :=
  let cs := s.data.dropWhile isSpaceByte
  match cs with
  | '-' :: rest => -(leadingDigits rest 0 : Int)
  | '+' :: rest => (leadingDigits rest 0 : Int)
  | _ => (leadingDigits cs 0 : Int)

/-- atof(3) restricted to the decimal grammar (sign, digits, optional
    fraction, optional exponent); the hex/inf/nan forms are not modelled and
    no claim exercises them.  Result as an exact rational. -/
def atof (s : String) : Rat :=
  let cs := s.data.dropWhile isSpaceByte
  let signAndRest : Rat × List Char :=
    match cs with
    | '-' :: r => (-1, r)
    | '+' :: r => (1, r)
    | _ => (1, cs)
  let sign := signAndRest.1
  let cs1 := signAndRest.2
  let ipart : Nat := leadingDigits (cs1.takeWhile Char.isDigit) 0
  let cs2 := cs1.dropWhile Char.isDigit
  let fracAndRest : List Char × List Char :=
    match cs2 with
    | '.' :: r => (r.takeWhile Char.isDigit, r.dropWhile Char.isDigit)
    | _ => ([], cs2)
  let fdigits := fracAndRest.1
  let cs3 := fracAndRest.2
  let expVal : Int :=
    match cs3 with
    | 'e' :: r =>
      match r with
      | '-' :: rr => -(leadingDigits (rr.takeWhile Char.isDigit) 0 : Int)
      | '+' :: rr => (leadingDigits (rr.takeWhile Char.isDigit) 0 : Int)
      | _ => (leadingDigits (r.takeWhile Char.isDigit) 0 : Int)
    | 'E' :: r =>
      match r with
      | '-' :: rr => -(leadingDigits (rr.takeWhile Char.isDigit) 0 : Int)
      | '+' :: rr => (leadingDigits (rr.takeWhile Char.isDigit) 0 : Int)
      | _ => (leadingDigits (r.takeWhile Char.isDigit) 0 : Int)
    | _ => 0
  let mantissa : Rat :=
    (ipart : Rat) + (leadingDigits fdigits 0 : Rat) / ((10 : Rat) ^ fdigits.length)
  sign * mantissa * (10 : Rat) ^ expVal

/-- strada_array_length: av ? av->size : 0 (a model array is its list of
    live elements, so no NULL case). -/
def strada_array_length (av : List StradaValue) : Nat := av.length

/-- The (int64_t) cast of a double truncates toward zero. -/
def ratTrunc (q : Rat) : Int := if q < 0 then -((-q).floor) else q.floor

/-- strada_to_int.  Cases in source order: INT, NUM, STR (atoll), ARRAY
    (length); UNDEF and every other tag fall through to 0. -/
def strada_to_int : StradaValue → Int
  | svInt iv _ => iv
  | svNum nv _ => ratTrunc nv
  | svStr pv _ => atoll pv
  | svArray elements _ => (strada_array_length elements : Int)
  | _ => 0

/-- strada_to_num.  INT, NUM, STR (atof), ARRAY (length), HASH (the C code
    tests the hv pointer, which is never NULL for a constructed hash, so 1),
    REF (1 if the referent pointer is non-NULL else 0); UNDEF and the rest
    fall through to 0. -/
def strada_to_num : StradaValue → Rat
  | svInt iv _ => (iv : Rat)
  | svNum nv _ => nv
  | svStr pv _ => atof pv
  | svArray elements _ => (strada_array_length elements : Rat)
  | svHash _ _ _ => 1
  | svRef (some _) _ => 1
  | svRef none _ => 0
  | _ => 0

/-- strada_to_str.  The ARRAY/HASH/FILEHANDLE/REGEX/CSTRUCT/CPOINTER cases
    print the payload's machine address, which has no counterpart in the
    model; the address digits are abstracted as "?".  STRADA_REF has no case
    in the C switch and falls through to "" with the default; so do SOCKET's
    fd rendering peers that no claim touches.  UNDEF and default give "". -/
def strada_to_str : StradaValue → String
  | svInt iv _ => toString iv
  | svNum nv _ => toString nv
  | svStr pv _ => pv
  | svArray _ _ => "ARRAY(0x?)"
  | svHash _ _ _ => "HASH(0x?)"
  | svFileHandle _ => "FILEHANDLE(0x?)"
  | svRegex _ => "REGEX(0x?)"
  | svSocket fd _ => "SOCKET(" ++ toString fd ++ ")"
  | svCStruct _ => "CSTRUCT(0x?)"
  | svCPointer _ => "CPOINTER(0x?)"
  | _ => ""

/-- strada_to_bool, including the recursive dereference of STRADA_REF. -/
def strada_to_bool : StradaValue → Bool
  | svUndef _ => false
  | svInt iv _ => iv != 0
  | svNum nv _ => nv != 0
  | svStr pv _ => pv != "" && pv != "0"
  | svArray elements _ => strada_array_length elements > 0
  | svHash _ buckets _ => (buckets.map List.length).sum > 0
  | svRef (some t) _ => strada_to_bool t
  | svRef none _ => false
  | _ => true

/- ===== Array operations (StradaArray) =====
   A model array is the list of its live elements (`elements[0..size-1]`);
   the capacity field only pre-allocates storage and is dropped.  Element
   refcount manipulation (incref on insert, ownership transfer on pop) is
   the concern of the RC system, not of these structural models. -/

/-- strada_array_get: negative index resolution, then bounds check; out of
    bounds yields a fresh Undef. -/
def strada_array_get (av : List StradaValue) (idx : Int) : StradaValue :=
  let idx2 : Int := if idx < 0 then (av.length : Int) + idx else idx
  if idx2 < 0 ∨ (av.length : Int) ≤ idx2 then strada_new_undef
  else av.getD idx2.toNat strada_new_undef

/-- strada_array_pop: empty array yields a fresh Undef and no mutation;
    otherwise the last element is handed out and size decremented. -/
def strada_array_pop (av : List StradaValue) : StradaValue × List StradaValue :=
  if av.isEmpty then (strada_new_undef, av)
  else ((av.getLast?).getD strada_new_undef, av.dropLast)

/-- strada_array_shift: empty array yields a fresh Undef and no mutation;
    otherwise the first element is handed out and the rest shifted down. -/
def strada_array_shift (av : List StradaValue) : StradaValue × List StradaValue :=
  match av with
  | [] => (strada_new_undef, [])
  | x :: rest => (x, rest)

/- ===== Hash operations (struct StradaHash) =====
   Separate-chaining table: `buckets` is the bucket array (length
   `num_buckets`), each bucket the chain from head to tail.  Keys are the
   bytes of the NUL-terminated C key string (`List Nat`).  The C struct's
   cached `num_entries` counter always equals the total number of chain
   entries and is modelled as that derived sum. -/

/-- A hash key: the (non-NUL) bytes of the C string. -/
abbrev HKey := List Nat

/-- One bucket: the chain from head entry to tail. -/
abbrev HBucket := List (HKey × StradaValue)

structure StradaHash : Type where
  num_buckets : Nat
  buckets : List HBucket

/-- num_entries: the entry counter the C code keeps in sync with the chains. -/
def StradaHash.num_entries (h : StradaHash) : Nat := (h.buckets.map List.length).sum

/-- strada_hash_string: the djb2 loop `hash = hash*33 + c` over the key
    bytes in 32-bit unsigned arithmetic.  `char` is signed on the reference
    platform, so a byte ≥ 128 enters the sum as its value minus 256
    (wrapped mod 2^32). -/
def strada_hash_string (key : HKey) : Nat :=
  key.foldl
    (fun h c => (h * 33 + (if c < 128 then c else c + 4294967040)) % 4294967296)
    5381

/-- The bucket index `strada_hash_string(key) % num_buckets`. -/
def hashIdx (nb : Nat) (key : HKey) : Nat := strada_hash_string key % nb

/-- The chain walk shared by get/exists (first entry whose key strcmp-equals). -/
def bucketFind : HBucket → HKey → Option StradaValue
  | [], _ => none
  | e :: rest, key => if e.1 = key then some e.2 else bucketFind rest key

/-- The replacement branch of strada_hash_set: the first matching entry's
    value pointer is overwritten in place (decref old / incref new is RC's
    concern); the chain's shape and keys are untouched. -/
def bucketReplace : HBucket → HKey → StradaValue → HBucket
  | [], _, _ => []
  | e :: rest, key, sv =>
    if e.1 = key then (e.1, sv) :: rest else e :: bucketReplace rest key sv

/-- strada_hash_delete's chain unlink: the first matching entry is removed. -/
def bucketRemove : HBucket → HKey → HBucket
  | [], _ => []
  | e :: rest, key => if e.1 = key then rest else e :: bucketRemove rest key

/-- The rehash loop of strada_hash_resize: entries are taken in bucket order,
    each chain from head to tail, and pushed at the head of their new bucket. -/
def rehashInto (nb2 : Nat) (acc : List HBucket) (entries : List (HKey × StradaValue)) :
    List HBucket :=
  entries.foldl
    (fun acc e => acc.set (hashIdx nb2 e.1) (e :: acc.getD (hashIdx nb2 e.1) []))
    acc

/-- strada_hash_resize: double the bucket count and rehash every entry. -/
def strada_hash_resize (h : StradaHash) : StradaHash :=
  { num_buckets := h.num_buckets * 2
    buckets := rehashInto (h.num_buckets * 2) (List.replicate (h.num_buckets * 2) [])
        h.buckets.flatten }

/-- strada_hash_set: replace in place if the key exists, otherwise insert at
    the chain head and resize once entries exceed 3/4 of the buckets
    (`num_entries * 4 > num_buckets * 3`, checked after the insertion; the
    replacement branch returns before the check). -/
def strada_hash_set (h : StradaHash) (key : HKey) (sv : StradaValue) : StradaHash :=
  let b := hashIdx h.num_buckets key
  let bucket := h.buckets.getD b []
  if (bucketFind bucket key).isSome then
    { h with buckets := h.buckets.set b (bucketReplace bucket key sv) }
  else
    let h2 : StradaHash := { h with buckets := h.buckets.set b ((key, sv) :: bucket) }
    if h2.num_entries * 4 > h2.num_buckets * 3 then strada_hash_resize h2 else h2

/-- The chain scan underlying strada_hash_get (shared with exists). -/
def strada_hash_find (h : StradaHash) (key : HKey) : Option StradaValue :=
  bucketFind (h.buckets.getD (hashIdx h.num_buckets key) []) key

/-- strada_hash_get: the stored value, or a fresh Undef for a missing key. -/
def strada_hash_get (h : StradaHash) (key : HKey) : StradaValue :=
  (strada_hash_find h key).getD strada_new_undef

/-- strada_hash_exists. -/
def strada_hash_exists (h : StradaHash) (key : HKey) : Bool :=
  (strada_hash_find h key).isSome

/-- strada_hash_delete. -/
def strada_hash_delete (h : StradaHash) (key : HKey) : StradaHash :=
  let b := hashIdx h.num_buckets key
  { h with buckets := h.buckets.set b (bucketRemove (h.buckets.getD b []) key) }

/-- All entries of the table, in bucket order (chain head first). -/
def hentries (h : StradaHash) : List (HKey × StradaValue) := h.buckets.flatten

/-- Structural invariant every table built by strada_hash_new and mutated
    through set/delete satisfies: a positive bucket count matching the
    bucket array's length, every entry chained in the bucket its hash
    selects, and no duplicate key inside a chain. -/
def HashWF (h : StradaHash) : Prop :=
  0 < h.num_buckets ∧
  h.buckets.length = h.num_buckets ∧
  (∀ i, i < h.buckets.length →
    ∀ e ∈ h.buckets.getD i [], hashIdx h.num_buckets e.1 = i) ∧
  (∀ i, i < h.buckets.length → ((h.buckets.getD i []).map Prod.fst).Nodup)

instance (h : StradaHash) : Decidable (HashWF h) := by
  unfold HashWF
  infer_instance

/- ===== RC: the single-value incref/decref lifecycle =====
   strada_incref / strada_decref / the entry into strada_free_value, for one
   value observed in isolation: the state is the signed refcount plus the
   number of times strada_free_value has run on the value.  A constructor
   (strada_new_*) returns refcount 1 and no free. -/
namespace RC

inductive Op : Type where
  | incref
  | decref
deriving DecidableEq

structure St : Type where
  refcount : Int
  frees : Nat
deriving DecidableEq

/-- The state strada_new_<kind> hands to the caller: refcount 1, never freed. -/
def initial : St := { refcount := 1, frees := 0 }

/-- strada_incref: `__sync_add_and_fetch(&sv->refcount, 1)`.
    strada_decref: `__sync_sub_and_fetch(&sv->refcount, 1) <= 0` calls
    strada_free_value. -/
def step (st : St) : Op → St
  | Op.incref => { st with refcount := st.refcount + 1 }
  | Op.decref =>
    let r := st.refcount - 1
    if r ≤ 0 then { refcount := r, frees := st.frees + 1 }
    else { st with refcount := r }

/-- Run a sequence of incref/decref operations from a state. -/
def run (st : St) (ops : List Op) : St := ops.foldl step st

/-- Number of increfs in a sequence. -/
def incs (ops : List Op) : Nat := ops.countP (· = Op.incref)

/-- Number of decrefs in a sequence. -/
def decs (ops : List Op) : Nat := ops.countP (· = Op.decref)

end RC

/- ===== Exceptions (try stack / throw / get_exception) =====
   `strada_try_stack` with its active flags and `strada_exception_msg`
   (a C string, NULL when clear).  The stack is modelled head-at-top:
   STRADA_TRY_PUSH conses an active frame (bounded by
   STRADA_MAX_TRY_DEPTH = 64), STRADA_TRY_POP deactivates and drops the top
   frame.  A throw either performs the longjmp to `strada_try_stack
   [strada_try_depth - 1]` (outcome `jumped (depth - 1)`, the top = nearest
   frame) or prints and calls exit(1) (outcome `terminated`). -/
namespace Exc

structure St : Type where
  tryStack : List Bool
  exceptionMsg : Option String

inductive Outcome : Type where
  | jumped (frame : Nat)
  | terminated
deriving DecidableEq

/-- strada_in_try_block: depth > 0 and the top frame's active flag. -/
def strada_in_try_block (st : St) : Bool :=
  match st.tryStack with
  | [] => false
  | a :: _ => a

/-- STRADA_TRY_PUSH: reserve and activate a frame if depth < 64. -/
def try_push (st : St) : St × Bool :=
  if st.tryStack.length < 64 then ({ st with tryStack := true :: st.tryStack }, true)
  else (st, false)

/-- STRADA_TRY_POP: deactivate and release the top frame. -/
def try_pop (st : St) : St × Bool :=
  match st.tryStack with
  | [] => (st, false)
  | _ :: rest => ({ st with tryStack := rest }, true)

/-- strada_throw_value: the stored exception payload is
    `strada_to_str(sv)` — the string conversion, not the value; then longjmp
    to the top frame if it is active, else fatal exit. -/
def strada_throw_value (st : St) (sv : StradaValue) : St × Outcome :=
  let st2 : St := { st with exceptionMsg := some (strada_to_str sv) }
  if strada_in_try_block st2 then (st2, Outcome.jumped (st2.tryStack.length - 1))
  else (st2, Outcome.terminated)

/-- strada_get_exception: a fresh Str holding the stored message, "" when
    none is stored. -/
def strada_get_exception (st : St) : StradaValue :=
  match st.exceptionMsg with
  | some m => strada_new_str m
  | none => strada_new_str ""

/-- strada_clear_exception. -/
def strada_clear_exception (st : St) : St := { st with exceptionMsg := none }

/-- The states reachable through the push/pop/throw protocol: every frame
    on the stack is still active (frames are deactivated exactly when they
    are popped off). -/
def AllActive (st : St) : Prop := ∀ b ∈ st.tryStack, b = true

end Exc

/- ===== Object system (package registry, lookup, bless, SUPER::) =====
   `oop_packages` is a flat array of packages scanned linearly by name; the
   model is the list of registered packages in registration order.  A
   StradaMethod function pointer is abstracted as a numeric id.  The
   fixed-capacity aborts (256 packages, 256 methods, 16 parents) are not
   exercised by any claim and are not modelled. -/

structure OopMethod : Type where
  name : String
  func : Nat
deriving DecidableEq

structure OopPackage : Type where
  name : String
  parents : List String
  methods : List OopMethod
deriving DecidableEq

abbrev Registry := List OopPackage

/-- oop_find_package: linear scan for the first package with this name. -/
def oop_find_package (reg : Registry) (name : String) : Option OopPackage :=
  reg.find? (fun p => p.name = name)

/-- The method-table scan inside the lookup: first entry with this name. -/
def findMethod (pkg : OopPackage) (meth : String) : Option Nat :=
  (pkg.methods.find? (fun m => m.name = meth)).map OopMethod.func

/-- The parent loop of the DFS: recurse into the next parent with the
    visited array as the previous call left it, stopping at the first parent
    whose subtree finds the method.  (`F` is the recursive call at the
    remaining recursion depth; `none` aborts the whole loop, as a C call
    that never returns would.) -/
def lookupFoldStep (F : String → List String → Option (List String × Option Nat))
    (acc : Option (List String × Option Nat)) (par : String) :
    Option (List String × Option Nat) :=
  match acc with
  | none => none
  | some (v, some f) => some (v, some f)
  | some (v, none) => F par v

/-- oop_lookup_method_in: depth-first, left-to-right search through the
    inheritance hierarchy.  The `visited` array is threaded through sibling
    recursion exactly as the shared C array is, and — as in the C code — a
    package is only recorded while fewer than 64 names have been recorded.
    The `Nat` fuel counts recursion depth; `none` means the recursion has
    not finished within that depth (the C function just keeps recursing). -/
def oop_lookup_method_in (reg : Registry) :
    Nat → String → String → List String → Option (List String × Option Nat)
  | 0, _, _, _ => none
  | fuel + 1, package, meth, visited =>
    if package = "" then some (visited, none)
    else if package ∈ visited then some (visited, none)
    else
      let visited2 := if visited.length < 64 then visited ++ [package] else visited
      match oop_find_package reg package with
      | none => some (visited2, none)
      | some pkg =>
        match findMethod pkg meth with
        | some f => some (visited2, some f)
        | none =>
          pkg.parents.foldl
            (lookupFoldStep (fun par v => oop_lookup_method_in reg fuel par meth v))
            (some (visited2, none))

/-- oop_lookup_method: entry point with a fresh visited array. -/
def oop_lookup_method (reg : Registry) (fuel : Nat) (package meth : String) :
    Option (Option Nat) :=
  (oop_lookup_method_in reg fuel package meth []).map Prod.snd

/-- The lookup the spec describes, as a second definition following the
    spec's words: "depth-first, left-to-right over the parent list, starting
    at the object's own blessed package, with a visited-set to guard against
    inheritance cycles; returns the first package (and its method) that
    defines the requested name, or not-found".  Identical traversal, but the
    visited set records every visited package (no 64-entry cap). -/
def spec_lookup_method_in (reg : Registry) :
    Nat → String → String → List String → Option (List String × Option Nat)
  | 0, _, _, _ => none
  | fuel + 1, package, meth, visited =>
    if package = "" then some (visited, none)
    else if package ∈ visited then some (visited, none)
    else
      let visited2 := visited ++ [package]
      match oop_find_package reg package with
      | none => some (visited2, none)
      | some pkg =>
        match findMethod pkg meth with
        | some f => some (visited2, some f)
        | none =>
          pkg.parents.foldl
            (lookupFoldStep (fun par v => spec_lookup_method_in reg fuel par meth v))
            (some (visited2, none))

/-- SUPER:: outcome: either one of strada_super_call's fatal exit(1) paths
    (unblessed receiver, unknown from-package, method found nowhere), or a
    dispatch of the located function. -/
inductive SuperResult : Type where
  | fatal
  | dispatch (f : Nat)
deriving DecidableEq

/-- The parent loop of strada_super_call: each direct parent of the calling
    package is tried in order with a full (fresh-visited) hierarchy lookup;
    the first parent whose hierarchy defines the method wins. -/
def superScanParents (reg : Registry) (fuel : Nat) (meth : String) :
    List String → Option (Option Nat)
  | [] => some none
  | p :: ps =>
    match oop_lookup_method reg fuel p meth with
    | none => none
    | some (some f) => some (some f)
    | some none => superScanParents reg fuel meth ps

/-- strada_super_call: dispatch driven by the package context of the
    currently executing method (`from_package`), not by the receiver's own
    blessed package — the receiver is only checked for being blessed and
    then passed to the located function. -/
def strada_super_call (reg : Registry) (fuel : Nat) (obj : StradaValue)
    (from_package meth : String) : Option SuperResult :=
  if blessed_package obj = none then some SuperResult.fatal
  else
    match oop_find_package reg from_package with
    | none => some SuperResult.fatal
    | some pkg =>
      match superScanParents reg fuel meth pkg.parents with
      | none => none
      | some (some f) => some (SuperResult.dispatch f)
      | some none => some SuperResult.fatal

/-- oop_get_or_create_package: append a fresh empty package on first use. -/
def oop_get_or_create_package (reg : Registry) (name : String) : Registry :=
  if (oop_find_package reg name).isSome then reg
  else reg ++ [{ name := name, parents := [], methods := [] }]

/-- Overwrite a value's blessed_package field (C: free the old strdup'd tag
    if present, then install the new one).  Works on every variant, exactly
    as the raw field assignment does. -/
def setBlessedTag (sv : StradaValue) (b : Option String) : StradaValue :=
  match sv with
  | svUndef _ => svUndef b
  | svInt iv _ => svInt iv b
  | svNum nv _ => svNum nv b
  | svStr pv _ => svStr pv b
  | svArray elements _ => svArray elements b
  | svHash nb bk _ => svHash nb bk b
  | svRef rv _ => svRef rv b
  | svFileHandle _ => svFileHandle b
  | svRegex _ => svRegex b
  | svSocket fd _ => svSocket fd b
  | svCStruct _ => svCStruct b
  | svCPointer _ => svCPointer b
  | svClosure _ => svClosure b

/-- strada_bless: register the package if unseen and install the tag on the
    value.  The C function checks only for NULL arguments — it never checks
    that `ref` is a Reference, so any variant can end up tagged. -/
def strada_bless (reg : Registry) (ref : StradaValue) (package : String) :
    Registry × StradaValue :=
  (oop_get_or_create_package reg package, setBlessedTag ref (some package))

/-- The corruption check at the head of strada_free_value: a value whose
    blessed_package is set while its type is not STRADA_REF makes the code
    print "Non-reference type ... has blessed_package set! This indicates
    memory corruption." and clear the tag. -/
def freeValueDetectsCorruption (sv : StradaValue) : Bool :=
  (blessed_package sv).isSome && !(isRefType sv)

/- ===== DS: destructor dispatch (strada_decref / strada_free_value /
   strada_call_destroy) =====
   A heap of blessed objects observed through their reference counts.  For
   each object id the static configuration records whether its blessed
   package's hierarchy defines DESTROY (`hasDestroy` abstracts the
   oop_lookup_method(pkg, "DESTROY") success in strada_call_destroy), which
   decrefs its DESTROY body performs (`dOps` — a destructor's observable
   effect on the heap), and which owned values strada_free_value's payload
   switch releases after the destructor returns (`children`).  The mutable
   state tracks refcounts, how often each object's DESTROY ran, how often
   each object was freed, and the process-global `oop_destroying` flag. -/
namespace DS

abbrev Id := Nat

structure Config : Type where
  hasDestroy : Id → Bool
  dOps : Id → List Id
  children : Id → List Id

structure St : Type where
  rc : Id → Int
  destroyCount : Id → Nat
  freeCount : Id → Nat
  destroying : Bool

/-- strada_decref followed, when the count drops to ≤ 0, by
    strada_free_value: the DESTROY branch runs first (guarded by the global
    `oop_destroying`, set for the duration of the destructor body and
    cleared before the payload switch), then the owned children are
    released.  Fuel bounds the recursion depth; exhausted fuel leaves the
    state as is (no run in the theorems below exhausts it). -/
def runDecref (cfg : Config) : Nat → St → Id → St
  | 0, st, _ => st
  | fuel + 1, st, o =>
    let r := st.rc o - 1
    let st1 : St := { st with rc := Function.update st.rc o r }
    if r ≤ 0 then
      let st2 : St :=
        { st1 with freeCount := Function.update st1.freeCount o (st1.freeCount o + 1) }
      let st3 : St :=
        if cfg.hasDestroy o && !st2.destroying then
          let stA : St :=
            { st2 with
              destroying := true
              destroyCount := Function.update st2.destroyCount o (st2.destroyCount o + 1) }
          let stB := (cfg.dOps o).foldl (fun s x => runDecref cfg fuel s x) stA
          { stB with destroying := false }
        else st2
      (cfg.children o).foldl (fun s x => runDecref cfg fuel s x) st3
    else st1

end DS

/- ===== Closures (struct StradaClosure, strada_closure_new,
   strada_closure_call) =====
   The capturing frame's variable slots are an environment `Env` (the C
   caller passes `cap_array`, an array of pointers into those slots).  The
   native function body is abstracted as a Lean function of the capture
   cells and the positional arguments. -/

abbrev Env := Nat → StradaValue

structure StradaClosure : Type where
  func_ptr : List StradaValue → List StradaValue → StradaValue
  param_count : Int
  captures : List StradaValue

/-- strada_closure_new: for each capture slot, copy the slot's *current*
    Value pointer into a closure-owned cell and incref it (the incref is the
    RC system's concern).  The captures are therefore a point-in-time
    snapshot of `env` at creation. -/
def strada_closure_new (func : List StradaValue → List StradaValue → StradaValue)
    (params : Int) (slots : List Nat) (env : Env) : StradaClosure :=
  { func_ptr := func, param_count := params, captures := slots.map env }

/-- A later write to a variable slot of the enclosing scope. -/
def env_set (env : Env) (x : Nat) (v : StradaValue) : Env := Function.update env x v

/-- strada_closure_call on a STRADA_CLOSURE: the native function receives
    the closure's own capture cells and the positional arguments.  The
    current state of the enclosing scope (`envNow`) is passed to the model
    only to make the claim statable; the code gives the function no access
    to it. -/
def strada_closure_call (cl : StradaClosure) (args : List StradaValue)
    (envNow : Env) : StradaValue :=
  cl.func_ptr cl.captures args

/- ===== Concrete instances used by individual claims ===== -/

/-- Out-of-bounds test of strada_array_get, after negative-index
    resolution (the claim C10's hypothesis). -/
def arrayIdxOOB (av : List StradaValue) (idx : Int) : Bool :=
  let idx2 : Int := if idx < 0 then (av.length : Int) + idx else idx
  idx2 < 0 || (av.length : Int) ≤ idx2

/-- The diamond hierarchy of the spec's test scenario: A defines m (func 1),
    B and C inherit from A, C also defines its own m (func 2), D inherits
    from B then C. -/
def diamondReg : Registry :=
  [ { name := "A", parents := [], methods := [{ name := "m", func := 1 }] },
    { name := "B", parents := ["A"], methods := [] },
    { name := "C", parents := ["A"], methods := [{ name := "m", func := 2 }] },
    { name := "D", parents := ["B", "C"], methods := [] } ]

/-- A registry on which method lookup never terminates: a linear chain of 64
    packages P0 → P1 → … → P63 fills the 64-entry visited array, and P63's
    parent X sits on a two-cycle X ⇄ Y that the full visited array can no
    longer record.  All capacities respect the C limits (one parent per
    package, 66 < 256 packages). -/
def badReg : Registry :=
  [ { name := "P0", parents := ["P1"], methods := [] },
    { name := "P1", parents := ["P2"], methods := [] },
    { name := "P2", parents := ["P3"], methods := [] },
    { name := "P3", parents := ["P4"], methods := [] },
    { name := "P4", parents := ["P5"], methods := [] },
    { name := "P5", parents := ["P6"], methods := [] },
    { name := "P6", parents := ["P7"], methods := [] },
    { name := "P7", parents := ["P8"], methods := [] },
    { name := "P8", parents := ["P9"], methods := [] },
    { name := "P9", parents := ["P10"], methods := [] },
    { name := "P10", parents := ["P11"], methods := [] },
    { name := "P11", parents := ["P12"], methods := [] },
    { name := "P12", parents := ["P13"], methods := [] },
    { name := "P13", parents := ["P14"], methods := [] },
    { name := "P14", parents := ["P15"], methods := [] },
    { name := "P15", parents := ["P16"], methods := [] },
    { name := "P16", parents := ["P17"], methods := [] },
    { name := "P17", parents := ["P18"], methods := [] },
    { name := "P18", parents := ["P19"], methods := [] },
    { name := "P19", parents := ["P20"], methods := [] },
    { name := "P20", parents := ["P21"], methods := [] },
    { name := "P21", parents := ["P22"], methods := [] },
    { name := "P22", parents := ["P23"], methods := [] },
    { name := "P23", parents := ["P24"], methods := [] },
    { name := "P24", parents := ["P25"], methods := [] },
    { name := "P25", parents := ["P26"], methods := [] },
    { name := "P26", parents := ["P27"], methods := [] },
    { name := "P27", parents := ["P28"], methods := [] },
    { name := "P28", parents := ["P29"], methods := [] },
    { name := "P29", parents := ["P30"], methods := [] },
    { name := "P30", parents := ["P31"], methods := [] },
    { name := "P31", parents := ["P32"], methods := [] },
    { name := "P32", parents := ["P33"], methods := [] },
    { name := "P33", parents := ["P34"], methods := [] },
    { name := "P34", parents := ["P35"], methods := [] },
    { name := "P35", parents := ["P36"], methods := [] },
    { name := "P36", parents := ["P37"], methods := [] },
    { name := "P37", parents := ["P38"], methods := [] },
    { name := "P38", parents := ["P39"], methods := [] },
    { name := "P39", parents := ["P40"], methods := [] },
    { name := "P40", parents := ["P41"], methods := [] },
    { name := "P41", parents := ["P42"], methods := [] },
    { name := "P42", parents := ["P43"], methods := [] },
    { name := "P43", parents := ["P44"], methods := [] },
    { name := "P44", parents := ["P45"], methods := [] },
    { name := "P45", parents := ["P46"], methods := [] },
    { name := "P46", parents := ["P47"], methods := [] },
    { name := "P47", parents := ["P48"], methods := [] },
    { name := "P48", parents := ["P49"], methods := [] },
    { name := "P49", parents := ["P50"], methods := [] },
    { name := "P50", parents := ["P51"], methods := [] },
    { name := "P51", parents := ["P52"], methods := [] },
    { name := "P52", parents := ["P53"], methods := [] },
    { name := "P53", parents := ["P54"], methods := [] },
    { name := "P54", parents := ["P55"], methods := [] },
    { name := "P55", parents := ["P56"], methods := [] },
    { name := "P56", parents := ["P57"], methods := [] },
    { name := "P57", parents := ["P58"], methods := [] },
    { name := "P58", parents := ["P59"], methods := [] },
    { name := "P59", parents := ["P60"], methods := [] },
    { name := "P60", parents := ["P61"], methods := [] },
    { name := "P61", parents := ["P62"], methods := [] },
    { name := "P62", parents := ["P63"], methods := [] },
    { name := "P63", parents := ["X"], methods := [] },
    { name := "X", parents := ["Y"], methods := [] },
    { name := "Y", parents := ["X"], methods := [] } ]

/-- The visited array after the DFS has walked the P0…P63 chain. -/
def visP : List String :=
  ["P0", "P1", "P2", "P3", "P4", "P5", "P6", "P7", "P8", "P9", "P10", "P11", "P12", "P13", "P14", "P15", "P16", "P17", "P18", "P19", "P20", "P21", "P22", "P23", "P24", "P25", "P26", "P27", "P28", "P29", "P30", "P31", "P32", "P33", "P34", "P35", "P36", "P37", "P38", "P39", "P40", "P41", "P42", "P43", "P44", "P45", "P46", "P47", "P48", "P49", "P50", "P51", "P52", "P53", "P54", "P55", "P56", "P57", "P58", "P59", "P60", "P61", "P62", "P63"]

/-- Destructor-dispatch counterexample configuration: two blessed objects
    with DESTROY defined, A = 0 and B = 1; A's destructor drops a reference
    to B; no owned children. -/
def dsCfgCE : DS.Config :=
  { hasDestroy := fun _ => true
    dOps := fun o => if o = 0 then [1] else []
    children := fun _ => [] }

/-- Start state for the counterexample: A holds one reference, B two (one
    external, one dropped by A's destructor); nothing destroyed yet. -/
def dsStCE : DS.St :=
  { rc := fun o => if o = 0 then 1 else if o = 1 then 2 else 0
    destroyCount := fun _ => 0
    freeCount := fun _ => 0
    destroying := false }

/-- Every package name that a lookup starting at `start` can ever visit:
    the start name plus each registered package's name and parent names. -/
def regNames (reg : Registry) (start : String) : List String :=
  start :: (reg.map (fun p => p.name :: p.parents)).flatten

/-- Entry point of the spec-worded lookup (fresh, uncapped visited set). -/
def spec_lookup_method (reg : Registry) (fuel : Nat) (package meth : String) :
    Option (Option Nat) :=
  (spec_lookup_method_in reg fuel package meth []).map Prod.snd

/- ===================================================================== -/
/- ===== Theorems ===== -/
/- ===================================================================== -/

/-- C7: the conversion helpers implement the truthiness rules exactly:
    Undef is false/0/0.0/"", Int and Num follow native truthiness, a Str is
    false iff empty or literally "0", Array and Hash are true iff non-empty,
    and Reference truthiness forwards recursively to the referent. -/
theorem C7_conversion_truthiness :
    (∀ b, strada_to_bool (svUndef b) = false ∧ strada_to_int (svUndef b) = 0 ∧
        strada_to_num (svUndef b) = 0 ∧ strada_to_str (svUndef b) = "") ∧
    (∀ (i : Int) (b : Option String), strada_to_bool (svInt i b) = true ↔ i ≠ 0) ∧
    (∀ (q : Rat) (b : Option String), strada_to_bool (svNum q b) = true ↔ q ≠ 0) ∧
    (∀ (s : String) (b : Option String),
        strada_to_bool (svStr s b) = true ↔ s ≠ "" ∧ s ≠ "0") ∧
    (∀ (l : List StradaValue) (b : Option String),
        strada_to_bool (svArray l b) = true ↔ l ≠ []) ∧
    (∀ (nb : Nat) (bk : List HBucket) (b : Option String),
        strada_to_bool (svHash nb bk b) = true ↔ 0 < (StradaHash.mk nb bk).num_entries) ∧
    (∀ (t : StradaValue) (b : Option String),
        strada_to_bool (svRef (some t) b) = strada_to_bool t) ∧
    (∀ b, strada_to_bool (svRef none b) = false) := by
  refine ⟨fun b => ⟨rfl, rfl, rfl, rfl⟩, ?_, ?_, ?_, ?_, ?_, fun t b => rfl, fun b => rfl⟩
  · intro i b; simp [strada_to_bool]
  · intro q b; simp [strada_to_bool]
  · intro s b; simp [strada_to_bool]
  · intro l b
    simp [strada_to_bool, strada_array_length, List.length_pos]
  · intro nb bk b
    simp [strada_to_bool, StradaHash.num_entries]

/-- C10: reads of absent elements are total and mutation-free: an
    out-of-bounds array get (after negative-index resolution), pop or shift
    on an empty array, and a hash get of a missing key each return the value
    strada_new_undef builds (a fresh Undef with refcount 1, per
    `RC.initial`), never an error, and leave the container as it was (get
    and hash-get perform no writes at all; pop and shift return the array
    unchanged). -/
theorem C10_absent_reads (av : List StradaValue) (idx : Int) (h : StradaHash)
    (k : HKey) (hoob : arrayIdxOOB av idx = true)
    (hmiss : strada_hash_find h k = none) :
    strada_array_get av idx = strada_new_undef ∧
    strada_array_pop [] = (strada_new_undef, ([] : List StradaValue)) ∧
    strada_array_shift [] = (strada_new_undef, ([] : List StradaValue)) ∧
    strada_hash_get h k = strada_new_undef ∧
    RC.initial.refcount = 1 ∧ RC.initial.frees = 0 := by
  refine ⟨?_, rfl, rfl, ?_, rfl, rfl⟩
  · simp only [arrayIdxOOB, Bool.or_eq_true, decide_eq_true_eq] at hoob
    simp only [strada_array_get]
    rw [if_pos hoob]
  · simp [strada_hash_get, hmiss]

/-- Witness for C10 at a concrete out-of-bounds read and missing key. -/
theorem C10_absent_reads_witness :
    arrayIdxOOB [] 5 = true ∧
    strada_hash_find ⟨16, List.replicate 16 []⟩ [107] = none ∧
    (strada_array_get [] 5 = strada_new_undef ∧
     strada_array_pop [] = (strada_new_undef, ([] : List StradaValue)) ∧
     strada_array_shift [] = (strada_new_undef, ([] : List StradaValue)) ∧
     strada_hash_get ⟨16, List.replicate 16 []⟩ [107] = strada_new_undef ∧
     RC.initial.refcount = 1 ∧ RC.initial.frees = 0) :=
  ⟨by decide, rfl, C10_absent_reads [] 5 ⟨16, List.replicate 16 []⟩ [107] (by decide) rfl⟩

/-- C3: at the failing input strada_bless(strada_new_int(5), "Foo"), the
    code installs the blessed tag on a non-Reference value (it never checks
    the type), producing exactly the state that strada_free_value's own
    corruption check later reports as "memory corruption"; the package is
    registered as a side effect. -/
theorem C3_bless_tags_nonreference :
    blessed_package (strada_bless [] (strada_new_int 5) "Foo").2 = some "Foo" ∧
    isRefType (strada_bless [] (strada_new_int 5) "Foo").2 = false ∧
    freeValueDetectsCorruption (strada_bless [] (strada_new_int 5) "Foo").2 = true ∧
    (strada_bless [] (strada_new_int 5) "Foo").1 =
      [{ name := "Foo", parents := [], methods := [] }] :=
  ⟨rfl, rfl, rfl, rfl⟩

/-- C2 (counterexample): throwing the Int value 42 inside an active try
    frame does jump, but the payload get_exception then returns is the
    string "42" — not the thrown value. -/
theorem C2_payload_counterexample :
    (Exc.strada_throw_value ⟨[true], none⟩ (strada_new_int 42)).2 =
      Exc.Outcome.jumped 0 ∧
    Exc.strada_get_exception (Exc.strada_throw_value ⟨[true], none⟩
      (strada_new_int 42)).1 = strada_new_str "42" ∧
    Exc.strada_get_exception (Exc.strada_throw_value ⟨[true], none⟩
      (strada_new_int 42)).1 ≠ strada_new_int 42 := by
  refine ⟨rfl, rfl, fun hEq => ?_⟩
  exact StradaValue.noConfusion hEq

/-- C2 (amended): a throw with the try stack non-empty (whose frames are
    all still active, as the push/pop protocol guarantees) jumps to the top
    — nearest — frame, leaves the stack in place, and stores as payload the
    string conversion of the thrown value, which is what get_exception then
    returns; a throw with no try frame terminates the process. -/
theorem C2_throw_semantics (st : Exc.St) (v : StradaValue)
    (hAll : Exc.AllActive st) :
    (st.tryStack ≠ [] →
       (Exc.strada_throw_value st v).2 =
         Exc.Outcome.jumped (st.tryStack.length - 1) ∧
       (Exc.strada_throw_value st v).1.tryStack = st.tryStack ∧
       Exc.strada_get_exception (Exc.strada_throw_value st v).1 =
         strada_new_str (strada_to_str v)) ∧
    (st.tryStack = [] →
       (Exc.strada_throw_value st v).2 = Exc.Outcome.terminated) := by
  constructor
  · intro hne
    rcases hst : st.tryStack with _ | ⟨a, rest⟩
    · exact absurd hst hne
    · have ha : a = true := hAll a (by rw [hst]; exact List.mem_cons_self a rest)
      subst ha
      simp [Exc.strada_throw_value, Exc.strada_in_try_block, Exc.strada_get_exception, hst]
  · intro hemp
    simp [Exc.strada_throw_value, Exc.strada_in_try_block, hemp]

/-- Witness for C2's amended theorem at one active frame and payload 7. -/
theorem C2_throw_semantics_witness :
    Exc.AllActive ⟨[true], none⟩ ∧
    ((([true] : List Bool) ≠ [] →
       (Exc.strada_throw_value ⟨[true], none⟩ (strada_new_int 7)).2 =
         Exc.Outcome.jumped (([true] : List Bool).length - 1) ∧
       (Exc.strada_throw_value ⟨[true], none⟩ (strada_new_int 7)).1.tryStack = [true] ∧
       Exc.strada_get_exception (Exc.strada_throw_value ⟨[true], none⟩
         (strada_new_int 7)).1 = strada_new_str (strada_to_str (strada_new_int 7))) ∧
     (([true] : List Bool) = [] →
       (Exc.strada_throw_value ⟨[true], none⟩ (strada_new_int 7)).2 =
         Exc.Outcome.terminated)) :=
  ⟨by simp [Exc.AllActive], C2_throw_semantics ⟨[true], none⟩ (strada_new_int 7)
    (by simp [Exc.AllActive])⟩

/-- C9: closure captures are a point-in-time snapshot: a call always
    computes from the values of the captured slots at creation time,
    whatever the enclosing scope holds at call time; in particular capturing
    x = 1, then setting x := 2 in the enclosing scope, then calling, the
    closure still computes with x = 1. -/
theorem C9_closure_snapshot :
    (∀ (f : List StradaValue → List StradaValue → StradaValue) (p : Int)
       (slots : List Nat) (env envNow : Env) (args : List StradaValue),
       strada_closure_call (strada_closure_new f p slots env) args envNow =
         f (slots.map env) args) ∧
    (∀ (env : Env) (x : Nat) (f : List StradaValue → List StradaValue → StradaValue),
       env x = strada_new_int 1 →
       f [strada_new_int 1] [] = strada_new_int 1 →
       strada_closure_call (strada_closure_new f 0 [x] env) []
         (env_set env x (strada_new_int 2)) = strada_new_int 1) := by
  constructor
  · intro f p slots env envNow args; rfl
  · intro env x f hx hf
    show f ([x].map env) [] = strada_new_int 1
    rw [List.map_cons, List.map_nil, hx, hf]

/-- Witness for C9: the concrete capture-then-mutate scenario. -/
theorem C9_closure_snapshot_witness :
    ((fun _ : Nat => strada_new_int 1) 0 = strada_new_int 1) ∧
    ((fun caps _ : List StradaValue => caps.getD 0 strada_new_undef)
        [strada_new_int 1] [] = strada_new_int 1) ∧
    strada_closure_call
      (strada_closure_new (fun caps _ => caps.getD 0 strada_new_undef) 0 [0]
        (fun _ => strada_new_int 1)) []
      (env_set (fun _ => strada_new_int 1) 0 (strada_new_int 2)) = strada_new_int 1 :=
  ⟨rfl, rfl, C9_closure_snapshot.2 (fun _ => strada_new_int 1) 0
    (fun caps _ => caps.getD 0 strada_new_undef) rfl rfl⟩

/-- C6: SUPER:: dispatch is driven by the package context of the currently
    executing method, not by the receiver's class: the result is the same
    for any blessed receiver, and the parent loop tries from_package's
    direct parents left to right, dispatching the first parent whose
    hierarchy defines the method.  In the diamond A, B(A), C(A), D(B, C) a
    SUPER:: call from within a B method reaches A's m — not C's m — and a
    SUPER:: call from within a D method also reaches A's m through B, even
    though C defines its own m. -/
theorem C6_super_dispatch :
    (∀ (reg : Registry) (fuel : Nat) (o1 o2 : StradaValue) (fp meth : String),
       blessed_package o1 ≠ none → blessed_package o2 ≠ none →
       strada_super_call reg fuel o1 fp meth = strada_super_call reg fuel o2 fp meth) ∧
    (∀ obj : StradaValue, blessed_package obj ≠ none →
       ∃ fA, (oop_find_package diamondReg "A").bind (fun p => findMethod p "m") =
           some fA ∧
         strada_super_call diamondReg 10 obj "B" "m" =
           some (SuperResult.dispatch fA) ∧
         strada_super_call diamondReg 10 obj "D" "m" =
           some (SuperResult.dispatch fA) ∧
         (oop_find_package diamondReg "C").bind (fun p => findMethod p "m") ≠
           some fA) := by
  constructor
  · intro reg fuel o1 o2 fp meth h1 h2
    simp [strada_super_call, h1, h2]
  · intro obj hb
    refine ⟨1, by decide, ?_, ?_, by decide⟩
    · simp only [strada_super_call, if_neg hb]
      decide
    · simp only [strada_super_call, if_neg hb]
      decide

/-- Witness for C6 at a blessed reference receiver. -/
theorem C6_super_dispatch_witness :
    blessed_package (svRef none (some "D")) ≠ none ∧
    (∃ fA, (oop_find_package diamondReg "A").bind (fun p => findMethod p "m") =
         some fA ∧
       strada_super_call diamondReg 10 (svRef none (some "D")) "B" "m" =
         some (SuperResult.dispatch fA) ∧
       strada_super_call diamondReg 10 (svRef none (some "D")) "D" "m" =
         some (SuperResult.dispatch fA) ∧
       (oop_find_package diamondReg "C").bind (fun p => findMethod p "m") ≠
         some fA) :=
  ⟨by simp [blessed_package], C6_super_dispatch.2 (svRef none (some "D"))
    (by simp [blessed_package])⟩

/-- Count of a cons, for the incref counter. -/
theorem RC.incs_cons (o : RC.Op) (l : List RC.Op) :
    RC.incs (o :: l) = RC.incs l + (if o = RC.Op.incref then 1 else 0) := by
  simp [RC.incs, List.countP_cons]

/-- Count of a cons, for the decref counter. -/
theorem RC.decs_cons (o : RC.Op) (l : List RC.Op) :
    RC.decs (o :: l) = RC.decs l + (if o = RC.Op.decref then 1 else 0) := by
  simp [RC.decs, List.countP_cons]

/-- While every prefix keeps the refcount positive, running the operations
    frees nothing and the refcount tracks the net incref/decref balance. -/
theorem RC.run_safe (ops : List RC.Op) : ∀ st : RC.St,
    (∀ n, n ≤ ops.length →
      (RC.decs (ops.take n) : Int) < st.refcount + RC.incs (ops.take n)) →
    (RC.run st ops).frees = st.frees ∧
    (RC.run st ops).refcount = st.refcount + RC.incs ops - RC.decs ops := by
  induction ops with
  | nil =>
    intro st h
    simp [RC.run, RC.incs, RC.decs]
  | cons o rest ih =>
    intro st h
    have h1 := h 1 (by simp)
    simp only [List.take_succ_cons, List.take_zero] at h1
    have hrunc : RC.run st (o :: rest) = RC.run (RC.step st o) rest := rfl
    cases o with
    | incref =>
      have hcond : ∀ n, n ≤ rest.length →
          (RC.decs (rest.take n) : Int) <
            (RC.step st RC.Op.incref).refcount + RC.incs (rest.take n) := by
        intro n hn
        have h2 := h (n + 1) (by simpa using Nat.succ_le_succ hn)
        simp only [List.take_succ_cons, RC.incs_cons, RC.decs_cons] at h2
        simp only [RC.step]
        push_cast at h2 ⊢
        omega
      have hrec := ih (RC.step st RC.Op.incref) hcond
      rw [hrunc]
      refine ⟨hrec.1, ?_⟩
      rw [hrec.2]
      simp only [RC.step, RC.incs_cons, RC.decs_cons]
      push_cast
      ring
    | decref =>
      have hpos : 1 < st.refcount := by
        simpa [RC.decs_cons, RC.incs_cons, RC.decs, RC.incs] using h1
      have hstep : RC.step st RC.Op.decref = { st with refcount := st.refcount - 1 } := by
        simp only [RC.step]
        rw [if_neg (by omega)]
      have hcond : ∀ n, n ≤ rest.length →
          (RC.decs (rest.take n) : Int) <
            (st.refcount - 1) + RC.incs (rest.take n) := by
        intro n hn
        have h2 := h (n + 1) (by simpa using Nat.succ_le_succ hn)
        simp only [List.take_succ_cons, RC.incs_cons, RC.decs_cons] at h2
        push_cast at h2 ⊢
        omega
      have hrec := ih { st with refcount := st.refcount - 1 } (by simpa using hcond)
      rw [hrunc, hstep]
      refine ⟨hrec.1, ?_⟩
      rw [hrec.2]
      simp only [RC.incs_cons, RC.decs_cons]
      push_cast
      ring

/-- C1: starting from the constructor state (refcount 1), a balanced
    incref/decref sequence — one that never decrements below the number of
    outstanding owners (every proper prefix has at most as many decrefs as
    increfs) and whose net count reaches zero exactly at the end (decrefs =
    increfs + 1) — frees the value exactly once, by its final decref: no
    proper prefix has freed it, and the whole run frees it once. -/
theorem C1_refcount_free_exactly_once (ops : List RC.Op)
    (hbal : RC.decs ops = RC.incs ops + 1)
    (hpre : ∀ n, n < ops.length → RC.decs (ops.take n) ≤ RC.incs (ops.take n)) :
    (RC.run RC.initial ops).frees = 1 ∧
    ∀ n, n < ops.length → (RC.run RC.initial (ops.take n)).frees = 0 := by
  have hprefix_safe : ∀ n, n < ops.length →
      (∀ m, m ≤ (ops.take n).length →
        (RC.decs ((ops.take n).take m) : Int) <
          RC.initial.refcount + RC.incs ((ops.take n).take m)) := by
    intro n hn m hm
    have hmn : m ≤ n := le_trans hm (List.length_take_le n ops)
    have heq : (ops.take n).take m = ops.take m := by
      rw [List.take_take]
      congr 1
      omega
    rw [heq]
    have hc := hpre m (by omega)
    show (RC.decs (ops.take m) : Int) < 1 + RC.incs (ops.take m)
    omega
  constructor
  · -- the final decref frees exactly once
    have hne : ops ≠ [] := by
      intro h
      subst h
      simp [RC.decs, RC.incs] at hbal
    have hlenpos : 0 < ops.length := List.length_pos.mpr hne
    have hsplit : ops.dropLast ++ [ops.getLast hne] = ops :=
      List.dropLast_append_getLast hne
    have hdt : ops.dropLast = ops.take (ops.length - 1) := List.dropLast_eq_take ops
    have hsafe := RC.run_safe ops.dropLast RC.initial (by
      rw [hdt]
      exact hprefix_safe (ops.length - 1) (by omega))
    have hinitle : RC.decs ops.dropLast ≤ RC.incs ops.dropLast := by
      rw [hdt]
      exact hpre (ops.length - 1) (by omega)
    have hcounts : RC.decs ops.dropLast + RC.decs [ops.getLast hne] =
        RC.incs ops.dropLast + RC.incs [ops.getLast hne] + 1 := by
      have h1 : RC.decs (ops.dropLast ++ [ops.getLast hne]) =
          RC.decs ops.dropLast + RC.decs [ops.getLast hne] := by
        simp [RC.decs, List.countP_append]
      have h2 : RC.incs (ops.dropLast ++ [ops.getLast hne]) =
          RC.incs ops.dropLast + RC.incs [ops.getLast hne] := by
        simp [RC.incs, List.countP_append]
      rw [← h1, ← h2, hsplit]
      exact hbal
    cases hl : ops.getLast hne with
    | incref =>
      rw [hl] at hcounts
      have e1 : RC.decs [RC.Op.incref] = 0 := rfl
      have e2 : RC.incs [RC.Op.incref] = 1 := rfl
      rw [e1, e2] at hcounts
      omega
    | decref =>
      rw [hl] at hcounts
      have e1 : RC.decs [RC.Op.decref] = 1 := rfl
      have e2 : RC.incs [RC.Op.decref] = 0 := rfl
      rw [e1, e2] at hcounts
      have hinit_eq : RC.decs ops.dropLast = RC.incs ops.dropLast := by omega
      have hrc : (RC.run RC.initial ops.dropLast).refcount = 1 := by
        rw [hsafe.2, hinit_eq]
        show (1 : Int) + RC.incs ops.dropLast - RC.incs ops.dropLast = 1
        ring
      have hrun : RC.run RC.initial ops =
          RC.step (RC.run RC.initial ops.dropLast) RC.Op.decref := by
        conv_lhs => rw [← hsplit]
        rw [← hl]
        simp [RC.run, List.foldl_append]
      have hstep : RC.step (RC.run RC.initial ops.dropLast) RC.Op.decref =
          { refcount := 0, frees := (RC.run RC.initial ops.dropLast).frees + 1 } := by
        simp only [RC.step, hrc]
        norm_num
      rw [hrun, hstep, hsafe.1]
      rfl
  · -- no proper prefix frees
    intro n hn
    have hsafe := RC.run_safe (ops.take n) RC.initial (hprefix_safe n hn)
    rw [hsafe.1]
    rfl

/-- Witness for C1 at the sequence incref, decref, decref. -/
theorem C1_refcount_free_exactly_once_witness :
    RC.decs [RC.Op.incref, RC.Op.decref, RC.Op.decref] =
      RC.incs [RC.Op.incref, RC.Op.decref, RC.Op.decref] + 1 ∧
    ((RC.run RC.initial [RC.Op.incref, RC.Op.decref, RC.Op.decref]).frees = 1 ∧
     ∀ n, n < ([RC.Op.incref, RC.Op.decref, RC.Op.decref] : List RC.Op).length →
       (RC.run RC.initial
         (([RC.Op.incref, RC.Op.decref, RC.Op.decref] : List RC.Op).take n)).frees = 0) :=
  ⟨by decide, C1_refcount_free_exactly_once _ (by decide) (by decide)⟩

/-- A foldl preserves any invariant its step preserves on list members. -/
theorem foldl_invariant_mem {α β : Type} (P : α → Prop) (g : α → β → α) :
    ∀ (l : List β), (∀ a b, b ∈ l → P a → P (g a b)) →
      ∀ a, P a → P (l.foldl g a) := by
  intro l
  induction l with
  | nil => intro _ a ha; exact ha
  | cons x xs ih =>
    intro h a ha
    exact ih (fun a b hb => h a b (List.mem_cons_of_mem x hb)) (g a x)
      (h a x (List.mem_cons_self x xs) ha)

/-- While the global oop_destroying flag is set, no decref — however deep
    its cascade of frees — dispatches any DESTROY: every destroyCount is
    unchanged and the flag stays set (strada_call_destroy returns
    immediately when oop_destroying is true). -/
theorem DS.destroying_suppresses (cfg : DS.Config) :
    ∀ (fuel : Nat) (st : DS.St) (x : DS.Id), st.destroying = true →
      (DS.runDecref cfg fuel st x).destroying = true ∧
      ∀ y, (DS.runDecref cfg fuel st x).destroyCount y = st.destroyCount y := by
  intro fuel
  induction fuel with
  | zero => intro st x h; exact ⟨h, fun y => rfl⟩
  | succ f ih =>
    intro st x h
    simp only [DS.runDecref]
    by_cases hr : st.rc x - 1 ≤ 0
    · rw [if_pos hr]
      simp only [h, Bool.not_true, Bool.and_false, Bool.false_eq_true, if_false]
      apply foldl_invariant_mem
        (fun s => s.destroying = true ∧ ∀ y, s.destroyCount y = st.destroyCount y)
        (fun s z => DS.runDecref cfg f s z) (cfg.children x)
        (fun s z _ hs => ⟨(ih s z hs.1).1, fun y => by rw [(ih s z hs.1).2 y, hs.2 y]⟩)
      exact ⟨rfl, fun y => rfl⟩
    · rw [if_neg hr]
      exact ⟨h, fun y => rfl⟩

/-- A decref of any object other than o — when o is nobody's owned child —
    never changes o's destroyCount and restores the destroying flag it
    started with (destructor-body drops of o are covered separately: they
    run under the destroying flag and dispatch nothing). -/
theorem DS.other_decref_preserves (cfg : DS.Config) (o : DS.Id)
    (hch : ∀ x, o ∉ cfg.children x) :
    ∀ (fuel : Nat) (st : DS.St) (x : DS.Id), x ≠ o →
      (DS.runDecref cfg fuel st x).destroyCount o = st.destroyCount o ∧
      (DS.runDecref cfg fuel st x).destroying = st.destroying := by
  intro fuel
  induction fuel with
  | zero => intro st x _; exact ⟨rfl, rfl⟩
  | succ f ih =>
    intro st x hx
    simp only [DS.runDecref]
    by_cases hr : st.rc x - 1 ≤ 0
    · rw [if_pos hr]
      by_cases hd : (cfg.hasDestroy x && !st.destroying) = true
      · have hflag : st.destroying = false := by
          have hd2 := hd
          simp only [Bool.and_eq_true, Bool.not_eq_true'] at hd2
          exact hd2.2
        rw [if_pos hd]
        have hB := foldl_invariant_mem
          (fun s => s.destroying = true ∧
            ∀ y, s.destroyCount y =
              Function.update st.destroyCount x (st.destroyCount x + 1) y)
          (fun s z => DS.runDecref cfg f s z) (cfg.dOps x)
          (fun s z _ hs => ⟨(DS.destroying_suppresses cfg f s z hs.1).1,
            fun y => by rw [(DS.destroying_suppresses cfg f s z hs.1).2 y, hs.2 y]⟩)
          { rc := Function.update st.rc x (st.rc x - 1)
            destroyCount := Function.update st.destroyCount x (st.destroyCount x + 1)
            freeCount := Function.update st.freeCount x (st.freeCount x + 1)
            destroying := true }
          ⟨rfl, fun y => rfl⟩
        rw [hflag]
        apply foldl_invariant_mem
          (fun s => s.destroyCount o = st.destroyCount o ∧ s.destroying = false)
          (fun s z => DS.runDecref cfg f s z) (cfg.children x)
          (fun s z hz hs => by
            have hzo : z ≠ o := fun he => (hch x) (he ▸ hz)
            exact ⟨by rw [(ih s z hzo).1, hs.1], by rw [(ih s z hzo).2, hs.2]⟩)
        refine ⟨?_, rfl⟩
        show (List.foldl (fun s z => DS.runDecref cfg f s z) _ (cfg.dOps x)).destroyCount o
            = st.destroyCount o
        rw [hB.2 o]
        exact Function.update_noteq (Ne.symm hx) _ _
      · rw [if_neg hd]
        apply foldl_invariant_mem
          (fun s => s.destroyCount o = st.destroyCount o ∧ s.destroying = st.destroying)
          (fun s z => DS.runDecref cfg f s z) (cfg.children x)
          (fun s z hz hs => by
            have hzo : z ≠ o := fun he => (hch x) (he ▸ hz)
            exact ⟨by rw [(ih s z hzo).1, hs.1], by rw [(ih s z hzo).2, hs.2]⟩)
        exact ⟨rfl, rfl⟩
    · rw [if_neg hr]
      exact ⟨rfl, rfl⟩

/-- C4 (amended): the decref that brings a blessed object's refcount to
    zero, performed while no DESTROY dispatch is in progress, runs that
    object's DESTROY exactly once (even if the destructor itself drops the
    object again — re-entrant destruction is suppressed); but the
    suppression guard is the process-global oop_destroying flag, so any
    object freed while some DESTROY is in progress has its own destructor
    dispatch skipped entirely. -/
theorem C4_destroy_dispatch (cfg : DS.Config) (st : DS.St) (o : DS.Id) (fuel : Nat)
    (hflag : st.destroying = false) (hrc : st.rc o = 1)
    (hhd : cfg.hasDestroy o = true) (hch : ∀ x, o ∉ cfg.children x) :
    (DS.runDecref cfg (fuel + 1) st o).destroyCount o = st.destroyCount o + 1 ∧
    (∀ (f : Nat) (st2 : DS.St) (x : DS.Id), st2.destroying = true →
       ∀ y, (DS.runDecref cfg f st2 x).destroyCount y = st2.destroyCount y) := by
  refine ⟨?_, fun f st2 x h2 => (DS.destroying_suppresses cfg f st2 x h2).2⟩
  simp only [DS.runDecref]
  have hc : st.rc o - 1 ≤ 0 := by rw [hrc]; norm_num
  rw [if_pos hc]
  have hd : (cfg.hasDestroy o && !st.destroying) = true := by rw [hhd, hflag]; rfl
  rw [if_pos hd]
  have hB := foldl_invariant_mem
    (fun s => s.destroying = true ∧
      ∀ y, s.destroyCount y =
        Function.update st.destroyCount o (st.destroyCount o + 1) y)
    (fun s z => DS.runDecref cfg fuel s z) (cfg.dOps o)
    (fun s z _ hs => ⟨(DS.destroying_suppresses cfg fuel s z hs.1).1,
      fun y => by rw [(DS.destroying_suppresses cfg fuel s z hs.1).2 y, hs.2 y]⟩)
    { rc := Function.update st.rc o (st.rc o - 1)
      destroyCount := Function.update st.destroyCount o (st.destroyCount o + 1)
      freeCount := Function.update st.freeCount o (st.freeCount o + 1)
      destroying := true }
    ⟨rfl, fun y => rfl⟩
  apply foldl_invariant_mem
    (fun s => s.destroyCount o = st.destroyCount o + 1)
    (fun s z => DS.runDecref cfg fuel s z) (cfg.children o)
    (fun s z hz hs => by
      have hzo : z ≠ o := fun he => (hch o) (he ▸ hz)
      rw [(DS.other_decref_preserves cfg o hch fuel s z hzo).1]
      exact hs)
  show (List.foldl (fun s z => DS.runDecref cfg fuel s z) _ (cfg.dOps o)).destroyCount o
      = st.destroyCount o + 1
  rw [hB.2 o]
  exact Function.update_same o _ _

/-- C4 (counterexample): B (= object 1) is blessed with DESTROY defined and
    is referenced from two places dropped at different times — once by the
    external decref, once by A's destructor.  The decref that brings B's
    refcount to zero happens inside A's DESTROY, so B is freed (freeCount 1)
    with its DESTROY never run (destroyCount 0), while A's DESTROY ran once:
    DESTROY does not run "exactly once per object". -/
theorem C4_destroy_skipped_counterexample :
    dsCfgCE.hasDestroy 1 = true ∧
    (DS.runDecref dsCfgCE 5 (DS.runDecref dsCfgCE 5 dsStCE 1) 0).rc 1 = 0 ∧
    (DS.runDecref dsCfgCE 5 (DS.runDecref dsCfgCE 5 dsStCE 1) 0).freeCount 1 = 1 ∧
    (DS.runDecref dsCfgCE 5 (DS.runDecref dsCfgCE 5 dsStCE 1) 0).destroyCount 1 = 0 ∧
    (DS.runDecref dsCfgCE 5 (DS.runDecref dsCfgCE 5 dsStCE 1) 0).destroyCount 0 = 1 := by
  decide

/-- Witness for C4's amended theorem: a single blessed object with DESTROY,
    dropped at top level. -/
theorem C4_destroy_dispatch_witness :
    (({ rc := fun _ => 1, destroyCount := fun _ => 0, freeCount := fun _ => 0,
        destroying := false } : DS.St).destroying = false) ∧
    (({ rc := fun _ => 1, destroyCount := fun _ => 0, freeCount := fun _ => 0,
        destroying := false } : DS.St).rc 0 = 1) ∧
    (({ hasDestroy := fun _ => true, dOps := fun _ => [], children := fun _ => [] } :
        DS.Config).hasDestroy 0 = true) ∧
    ((DS.runDecref
        { hasDestroy := fun _ => true, dOps := fun _ => [], children := fun _ => [] }
        (2 + 1)
        { rc := fun _ => 1, destroyCount := fun _ => 0, freeCount := fun _ => 0,
          destroying := false } 0).destroyCount 0 =
      ({ rc := fun _ => 1, destroyCount := fun _ => 0, freeCount := fun _ => 0,
         destroying := false } : DS.St).destroyCount 0 + 1) :=
  ⟨rfl, rfl, rfl,
    (C4_destroy_dispatch
      { hasDestroy := fun _ => true, dOps := fun _ => [], children := fun _ => [] }
      { rc := fun _ => 1, destroyCount := fun _ => 0, freeCount := fun _ => 0,
        destroying := false } 0 2 rfl rfl rfl (fun x => List.not_mem_nil 0)).1⟩

/-- Replacing an existing key's value makes the chain walk return the new
    value. -/
theorem bucketFind_replace_self (bucket : HBucket) (key : HKey) (sv : StradaValue)
    (h : (bucketFind bucket key).isSome) :
    bucketFind (bucketReplace bucket key sv) key = some sv := by
  induction bucket with
  | nil => simp [bucketFind] at h
  | cons e rest ih =>
    by_cases he : e.1 = key
    · simp [bucketReplace, bucketFind, he]
    · simp only [bucketReplace, bucketFind, if_neg he] at h ⊢
      exact ih h

/-- Replacement leaves every other key's chain walk unchanged. -/
theorem bucketFind_replace_ne (bucket : HBucket) (key k2 : HKey) (sv : StradaValue)
    (h : k2 ≠ key) :
    bucketFind (bucketReplace bucket key sv) k2 = bucketFind bucket k2 := by
  induction bucket with
  | nil => rfl
  | cons e rest ih =>
    by_cases he : e.1 = key
    · simp only [bucketReplace, if_pos he, bucketFind]
      rw [if_neg (by rw [he]; exact fun hk => h hk.symm),
        if_neg (by rw [he]; exact fun hk => h hk.symm)]
    · simp only [bucketReplace, if_neg he, bucketFind]
      by_cases h2 : e.1 = k2
      · rw [if_pos h2, if_pos h2]
      · rw [if_neg h2, if_neg h2]
        exact ih

/-- Replacement does not touch the chain's keys. -/
theorem bucketReplace_keys (bucket : HBucket) (key : HKey) (sv : StradaValue) :
    (bucketReplace bucket key sv).map Prod.fst = bucket.map Prod.fst := by
  induction bucket with
  | nil => rfl
  | cons e rest ih =>
    by_cases he : e.1 = key
    · simp [bucketReplace, he]
    · simp [bucketReplace, he, ih]

/-- Unlinking a key from a duplicate-free chain makes its walk miss. -/
theorem bucketFind_remove_self (bucket : HBucket) (key : HKey)
    (h : (bucket.map Prod.fst).Nodup) :
    bucketFind (bucketRemove bucket key) key = none := by
  induction bucket with
  | nil => rfl
  | cons e rest ih =>
    simp only [List.map_cons, List.nodup_cons] at h
    by_cases he : e.1 = key
    · simp only [bucketRemove, if_pos he]
      -- key does not occur among the remaining keys
      cases hf : bucketFind rest key with
      | none => rfl
      | some w =>
        exfalso
        apply h.1
        rw [he]
        clear ih h
        induction rest with
        | nil => simp [bucketFind] at hf
        | cons e2 r2 ih2 =>
          simp only [bucketFind] at hf
          by_cases h2 : e2.1 = key
          · simp [← h2]
          · rw [if_neg h2] at hf
            simp [ih2 hf]
    · simp only [bucketRemove, if_neg he, bucketFind, if_neg he]
      exact ih h.2

/-- Unlinking one key leaves every other key's chain walk unchanged. -/
theorem bucketFind_remove_ne (bucket : HBucket) (key k2 : HKey) (h : k2 ≠ key) :
    bucketFind (bucketRemove bucket key) k2 = bucketFind bucket k2 := by
  induction bucket with
  | nil => rfl
  | cons e rest ih =>
    by_cases he : e.1 = key
    · simp only [bucketRemove, if_pos he, bucketFind]
      rw [if_neg (by rw [he]; exact fun hk => h hk.symm)]
    · simp only [bucketRemove, if_neg he, bucketFind]
      by_cases h2 : e.1 = k2
      · rw [if_pos h2, if_pos h2]
      · rw [if_neg h2, if_neg h2]
        exact ih

/-- A successful chain walk returns a chain entry. -/
theorem bucketFind_mem {bucket : HBucket} {k : HKey} {v : StradaValue}
    (h : bucketFind bucket k = some v) : (k, v) ∈ bucket := by
  induction bucket with
  | nil => simp [bucketFind] at h
  | cons e rest ih =>
    simp only [bucketFind] at h
    by_cases he : e.1 = k
    · rw [if_pos he] at h
      injection h with h2
      rw [← he, ← h2]
      exact List.mem_cons_self e rest
    · rw [if_neg he] at h
      exact List.mem_cons_of_mem e (ih h)

/-- In a duplicate-free chain, the walk finds any entry the chain holds. -/
theorem bucketFind_of_mem_nodup {bucket : HBucket} {k : HKey} {v : StradaValue}
    (hn : (bucket.map Prod.fst).Nodup) (h : (k, v) ∈ bucket) :
    bucketFind bucket k = some v := by
  induction bucket with
  | nil => simp at h
  | cons e rest ih =>
    simp only [List.map_cons, List.nodup_cons] at hn
    rcases List.mem_cons.mp h with he | hrest
    · rw [← he]
      simp [bucketFind]
    · have hke : e.1 ≠ k := by
        intro hk
        exact hn.1 (hk ▸ List.mem_map_of_mem Prod.fst hrest)
      simp only [bucketFind, if_neg hke]
      exact ih hn.2 hrest

/-- A failed chain walk means no entry carries the key. -/
theorem bucketFind_none_iff {bucket : HBucket} {k : HKey} :
    bucketFind bucket k = none ↔ ∀ v, (k, v) ∉ bucket := by
  constructor
  · intro h v hv
    induction bucket with
    | nil => simp at hv
    | cons e rest ih =>
      simp only [bucketFind] at h
      by_cases he : e.1 = k
      · rw [if_pos he] at h
        exact Option.noConfusion h
      · rw [if_neg he] at h
        rcases List.mem_cons.mp hv with hev | hrest
        · exact he (by rw [← hev])
        · exact ih h hrest
  · intro h
    cases hf : bucketFind bucket k with
    | none => rfl
    | some w => exact absurd (bucketFind_mem hf) (h w)

/-- getD after set at the same (in-range) index. -/
theorem getD_set_self (l : List HBucket) (i : Nat) (x : HBucket) (h : i < l.length) :
    (l.set i x).getD i [] = x := by
  simp [List.getD_eq_getElem?_getD, List.getElem?_set_self', List.getElem?_eq_getElem h]

/-- getD after set at a different index. -/
theorem getD_set_ne (l : List HBucket) (i j : Nat) (x : HBucket) (h : i ≠ j) :
    (l.set i x).getD j [] = l.getD j [] := by
  simp [List.getD_eq_getElem?_getD, List.getElem?_set_ne h]

/-- The bucket index is always in range. -/
theorem hashIdx_lt (nb : Nat) (k : HKey) (h : 0 < nb) : hashIdx nb k < nb :=
  Nat.mod_lt _ h

/-- A successful find returns one of the stored entries. -/
theorem hash_find_mem {h : StradaHash} (wf : HashWF h) {k : HKey} {v : StradaValue}
    (hf : strada_hash_find h k = some v) : (k, v) ∈ hentries h := by
  obtain ⟨hpos, hlen, _, _⟩ := wf
  have hi : hashIdx h.num_buckets k < h.buckets.length := by
    rw [hlen]; exact hashIdx_lt _ _ hpos
  have hbmem : h.buckets.getD (hashIdx h.num_buckets k) [] ∈ h.buckets := by
    rw [List.getD_eq_getElem _ _ hi]
    exact List.getElem_mem hi
  exact List.mem_flatten.mpr ⟨_, hbmem, bucketFind_mem hf⟩

/-- Under the invariant, every stored entry is found. -/
theorem hash_find_of_mem {h : StradaHash} (wf : HashWF h) {k : HKey} {v : StradaValue}
    (hm : (k, v) ∈ hentries h) : strada_hash_find h k = some v := by
  obtain ⟨hpos, hlen, hplace, hnodup⟩ := wf
  obtain ⟨b, hb, hev⟩ := List.mem_flatten.mp hm
  obtain ⟨i, hilt, hieq⟩ := List.mem_iff_getElem.mp hb
  have hgetD : h.buckets.getD i [] = b := by
    rw [List.getD_eq_getElem _ _ hilt, hieq]
  have hplaced : hashIdx h.num_buckets k = i :=
    hplace i hilt (k, v) (by rw [hgetD]; exact hev)
  show bucketFind (h.buckets.getD (hashIdx h.num_buckets k) []) k = some v
  rw [hplaced, hgetD]
  exact bucketFind_of_mem_nodup (hgetD ▸ hnodup i hilt) hev

/-- Under the invariant a key maps to at most one value. -/
theorem hentries_value_unique {h : StradaHash} (wf : HashWF h) {k : HKey}
    {v w : StradaValue} (h1 : (k, v) ∈ hentries h) (h2 : (k, w) ∈ hentries h) :
    v = w := by
  have e1 := hash_find_of_mem wf h1
  have e2 := hash_find_of_mem wf h2
  rw [e1] at e2
  exact Option.some.inj e2

/-- A find misses exactly when no entry holds the key. -/
theorem hash_find_none_iff {h : StradaHash} (wf : HashWF h) {k : HKey} :
    strada_hash_find h k = none ↔ ∀ v, (k, v) ∉ hentries h := by
  constructor
  · intro hf v hv
    rw [hash_find_of_mem wf hv] at hf
    exact Option.noConfusion hf
  · intro hnone
    cases hf : strada_hash_find h k with
    | none => rfl
    | some w => exact absurd (hash_find_mem wf hf) (hnone w)

/-- The rehash loop preserves the bucket-array length. -/
theorem rehashInto_length (nb2 : Nat) (L : List (HKey × StradaValue)) :
    ∀ acc : List HBucket, (rehashInto nb2 acc L).length = acc.length := by
  induction L with
  | nil => intro acc; rfl
  | cons e0 rest ih =>
    intro acc
    rw [show rehashInto nb2 acc (e0 :: rest) =
        rehashInto nb2 (acc.set (hashIdx nb2 e0.1)
          (e0 :: acc.getD (hashIdx nb2 e0.1) [])) rest from rfl]
    rw [ih, List.length_set]

/-- Membership in a rehash-target bucket: an entry sits in bucket i exactly
    if it was already there or it is a rehashed entry whose new index is i. -/
theorem rehashInto_mem (nb2 : Nat) (hpos : 0 < nb2)
    (L : List (HKey × StradaValue)) :
    ∀ acc : List HBucket, acc.length = nb2 →
      ∀ i, i < nb2 → ∀ e : HKey × StradaValue,
        (e ∈ (rehashInto nb2 acc L).getD i [] ↔
          e ∈ acc.getD i [] ∨ (e ∈ L ∧ hashIdx nb2 e.1 = i)) := by
  induction L with
  | nil =>
    intro acc _ i _ e
    simp [rehashInto]
  | cons e0 rest ih =>
    intro acc hlen i hi e
    rw [show rehashInto nb2 acc (e0 :: rest) =
        rehashInto nb2 (acc.set (hashIdx nb2 e0.1)
          (e0 :: acc.getD (hashIdx nb2 e0.1) [])) rest from rfl]
    have hj : hashIdx nb2 e0.1 < acc.length := by rw [hlen]; exact hashIdx_lt _ _ hpos
    rw [ih _ (by rw [List.length_set]; exact hlen) i hi e]
    by_cases hij : hashIdx nb2 e0.1 = i
    · rw [← hij, getD_set_self _ _ _ hj]
      constructor
      · rintro (h1 | h2)
        · rcases List.mem_cons.mp h1 with he0 | hacc
          · exact Or.inr ⟨by rw [he0]; exact List.mem_cons_self _ _, by rw [he0, hij]⟩
          · exact Or.inl hacc
        · exact Or.inr ⟨List.mem_cons_of_mem _ h2.1, h2.2⟩
      · rintro (hacc | ⟨hmem, hidx⟩)
        · exact Or.inl (List.mem_cons_of_mem _ hacc)
        · rcases List.mem_cons.mp hmem with he0 | hrest
          · exact Or.inl (by rw [he0]; exact List.mem_cons_self _ _)
          · exact Or.inr ⟨hrest, hidx⟩
    · rw [getD_set_ne _ _ _ _ hij]
      constructor
      · rintro (hacc | ⟨hrest, hidx⟩)
        · exact Or.inl hacc
        · exact Or.inr ⟨List.mem_cons_of_mem _ hrest, hidx⟩
      · rintro (hacc | ⟨hmem, hidx⟩)
        · exact Or.inl hacc
        · rcases List.mem_cons.mp hmem with he0 | hrest
          · exact absurd (by rw [← he0]; exact hidx) hij
          · exact Or.inr ⟨hrest, hidx⟩

/-- The rehash loop keeps every target chain free of duplicate keys when
    the incoming entries' keys are unique and disjoint from the target. -/
theorem rehashInto_nodup (nb2 : Nat) (hpos : 0 < nb2)
    (L : List (HKey × StradaValue)) :
    ∀ acc : List HBucket, acc.length = nb2 →
      (∀ i, ((acc.getD i []).map Prod.fst).Nodup) →
      (∀ e ∈ L, ∀ i, e.1 ∉ (acc.getD i []).map Prod.fst) →
      (L.map Prod.fst).Nodup →
      ∀ i, (((rehashInto nb2 acc L).getD i []).map Prod.fst).Nodup := by
  induction L with
  | nil => intro acc _ h1 _ _ i; exact h1 i
  | cons e0 rest ih =>
    intro acc hlen h1 h2 h3 i
    rw [show rehashInto nb2 acc (e0 :: rest) =
        rehashInto nb2 (acc.set (hashIdx nb2 e0.1)
          (e0 :: acc.getD (hashIdx nb2 e0.1) [])) rest from rfl]
    have hj : hashIdx nb2 e0.1 < acc.length := by rw [hlen]; exact hashIdx_lt _ _ hpos
    simp only [List.map_cons, List.nodup_cons] at h3
    apply ih _ (by rw [List.length_set]; exact hlen)
    · intro i2
      by_cases hji : hashIdx nb2 e0.1 = i2
      · rw [← hji, getD_set_self _ _ _ hj]
        simp only [List.map_cons, List.nodup_cons]
        exact ⟨h2 e0 (List.mem_cons_self _ _) _, h1 _⟩
      · rw [getD_set_ne _ _ _ _ hji]
        exact h1 i2
    · intro e he i2
      by_cases hji : hashIdx nb2 e0.1 = i2
      · rw [← hji, getD_set_self _ _ _ hj]
        simp only [List.map_cons, List.mem_cons]
        rintro (heq | hmem)
        · exact h3.1 (heq ▸ List.mem_map_of_mem Prod.fst he)
        · exact h2 e (List.mem_cons_of_mem _ he) _ hmem
      · rw [getD_set_ne _ _ _ _ hji]
        exact h2 e (List.mem_cons_of_mem _ he) i2
    · exact h3.2

/-- Under the invariant, all stored keys across the table are distinct. -/
theorem hentries_keys_nodup {h : StradaHash} (wf : HashWF h) :
    ((hentries h).map Prod.fst).Nodup := by
  obtain ⟨hpos, hlen, hplace, hnodup⟩ := wf
  rw [hentries, List.map_flatten, List.nodup_flatten]
  constructor
  · intro l hl
    obtain ⟨b, hb, rfl⟩ := List.mem_map.mp hl
    obtain ⟨i, hilt, hieq⟩ := List.mem_iff_getElem.mp hb
    have hgetD : h.buckets.getD i [] = b := by
      rw [List.getD_eq_getElem _ _ hilt, hieq]
    exact hgetD ▸ hnodup i hilt
  · rw [List.pairwise_iff_getElem]
    intro i j hi hj hij
    simp only [List.length_map] at hi hj
    intro a hai haj
    rw [List.getElem_map] at hai haj
    obtain ⟨e1, he1, hk1⟩ := List.mem_map.mp hai
    obtain ⟨e2, he2, hk2⟩ := List.mem_map.mp haj
    have hg1 : h.buckets.getD i [] = h.buckets[i] := List.getD_eq_getElem _ _ hi
    have hg2 : h.buckets.getD j [] = h.buckets[j] := List.getD_eq_getElem _ _ hj
    have hp1 := hplace i hi e1 (by rw [hg1]; exact he1)
    have hp2 := hplace j hj e2 (by rw [hg2]; exact he2)
    rw [hk1] at hp1
    rw [hk2] at hp2
    omega

/-- Resizing preserves the invariant. -/
theorem strada_hash_resize_wf {h : StradaHash} (wf : HashWF h) :
    HashWF (strada_hash_resize h) := by
  have hw := wf
  obtain ⟨hpos, hlen, hplace, hnodup⟩ := hw
  have hpos2 : 0 < h.num_buckets * 2 := by omega
  have hrlen : (strada_hash_resize h).buckets.length = h.num_buckets * 2 := by
    show (rehashInto _ _ _).length = _
    rw [rehashInto_length, List.length_replicate]
  refine ⟨hpos2, hrlen, ?_, ?_⟩
  · intro i hi e he
    rw [hrlen] at hi
    have := (rehashInto_mem (h.num_buckets * 2) hpos2 h.buckets.flatten
      (List.replicate (h.num_buckets * 2) []) (List.length_replicate _ _) i hi e).mp he
    rcases this with hrep | ⟨_, hidx⟩
    · rw [List.getD_eq_getElem _ _ (by rw [List.length_replicate]; exact hi)] at hrep
      rw [List.getElem_replicate] at hrep
      simp at hrep
    · exact hidx
  · intro i hi
    rw [hrlen] at hi
    apply rehashInto_nodup (h.num_buckets * 2) hpos2 h.buckets.flatten
      (List.replicate (h.num_buckets * 2) []) (List.length_replicate _ _)
    · intro i2
      cases Nat.lt_or_ge i2 (h.num_buckets * 2) with
      | inl hlt =>
        rw [List.getD_eq_getElem _ _ (by rw [List.length_replicate]; exact hlt),
          List.getElem_replicate]
        exact List.nodup_nil
      | inr hge =>
        rw [List.getD_eq_default _ _ (by rw [List.length_replicate]; exact hge)]
        exact List.nodup_nil
    · intro e _ i2
      cases Nat.lt_or_ge i2 (h.num_buckets * 2) with
      | inl hlt =>
        rw [List.getD_eq_getElem _ _ (by rw [List.length_replicate]; exact hlt),
          List.getElem_replicate]
        simp
      | inr hge =>
        rw [List.getD_eq_default _ _ (by rw [List.length_replicate]; exact hge)]
        simp
    · exact hentries_keys_nodup wf

/-- Resizing preserves every key-to-value mapping. -/
theorem strada_hash_resize_find {h : StradaHash} (wf : HashWF h) (k : HKey) :
    strada_hash_find (strada_hash_resize h) k = strada_hash_find h k := by
  have hw := wf
  obtain ⟨hpos, hlen, hplace, hnodup⟩ := hw
  have hpos2 : 0 < h.num_buckets * 2 := by omega
  have hmemiff : ∀ e : HKey × StradaValue,
      e ∈ (strada_hash_resize h).buckets.getD
        (hashIdx (h.num_buckets * 2) e.1) [] ↔ e ∈ hentries h := by
    intro e
    have := rehashInto_mem (h.num_buckets * 2) hpos2 h.buckets.flatten
      (List.replicate (h.num_buckets * 2) []) (List.length_replicate _ _)
      (hashIdx (h.num_buckets * 2) e.1) (hashIdx_lt _ _ hpos2) e
    rw [show (strada_hash_resize h).buckets =
        rehashInto (h.num_buckets * 2) (List.replicate (h.num_buckets * 2) [])
          h.buckets.flatten from rfl]
    rw [this]
    constructor
    · rintro (hrep | ⟨hm, _⟩)
      · rw [List.getD_eq_getElem _ _ (by
            rw [List.length_replicate]; exact hashIdx_lt _ _ hpos2),
          List.getElem_replicate] at hrep
        simp at hrep
      · exact hm
    · intro hm
      exact Or.inr ⟨hm, rfl⟩
  show bucketFind ((strada_hash_resize h).buckets.getD
      (hashIdx (strada_hash_resize h).num_buckets k) []) k = strada_hash_find h k
  have hnb2 : (strada_hash_resize h).num_buckets = h.num_buckets * 2 := rfl
  rw [hnb2]
  cases hf : strada_hash_find h k with
  | some v =>
    have hmem : (k, v) ∈ hentries h := hash_find_mem wf hf
    have hnew : (k, v) ∈ (strada_hash_resize h).buckets.getD
        (hashIdx (h.num_buckets * 2) k) [] := (hmemiff (k, v)).mpr hmem
    cases hfn : bucketFind ((strada_hash_resize h).buckets.getD
        (hashIdx (h.num_buckets * 2) k) []) k with
    | none =>
      exact absurd hnew (bucketFind_none_iff.mp hfn v)
    | some w =>
      have hwmem : (k, w) ∈ hentries h := (hmemiff (k, w)).mp (bucketFind_mem hfn)
      rw [hentries_value_unique wf hwmem hmem]
  | none =>
    rw [bucketFind_none_iff]
    intro v hv
    have : (k, v) ∈ hentries h := (hmemiff (k, v)).mp hv
    exact (hash_find_none_iff wf).mp hf v this

/-- Finding in a table with one bucket replaced: the edited bucket answers
    for its own index, every other key is unaffected. -/
theorem hash_set_bucket_find (h : StradaHash) (i : Nat) (nbkt : HBucket)
    (hi : i < h.buckets.length) (k2 : HKey) :
    strada_hash_find { h with buckets := h.buckets.set i nbkt } k2 =
      if hashIdx h.num_buckets k2 = i then bucketFind nbkt k2
      else strada_hash_find h k2 := by
  show bucketFind ((h.buckets.set i nbkt).getD (hashIdx h.num_buckets k2) []) k2 = _
  by_cases hik : hashIdx h.num_buckets k2 = i
  · rw [hik, if_pos rfl, getD_set_self _ _ _ hi]
  · rw [if_neg hik, getD_set_ne _ _ _ _ (fun he => hik he.symm)]
    rfl

/-- The invariant survives replacing one bucket by a chain whose entries
    all belong at that index and whose keys are unique. -/
theorem hash_set_bucket_wf (h : StradaHash) (i : Nat) (nbkt : HBucket)
    (wf : HashWF h) (hi : i < h.buckets.length)
    (hplaceN : ∀ e ∈ nbkt, hashIdx h.num_buckets e.1 = i)
    (hnodupN : (nbkt.map Prod.fst).Nodup) :
    HashWF { h with buckets := h.buckets.set i nbkt } := by
  obtain ⟨hpos, hlen, hplace, hnodup⟩ := wf
  refine ⟨hpos, by rw [List.length_set]; exact hlen, ?_, ?_⟩
  · intro j hj e he
    rw [List.length_set] at hj
    by_cases hij : i = j
    · rw [← hij] at he ⊢
      rw [getD_set_self _ _ _ hi] at he
      exact hplaceN e he
    · rw [getD_set_ne _ _ _ _ hij] at he
      exact hplace j hj e he
  · intro j hj
    rw [List.length_set] at hj
    by_cases hij : i = j
    · rw [← hij, getD_set_self _ _ _ hi]
      exact hnodupN
    · rw [getD_set_ne _ _ _ _ hij]
      exact hnodup j hj

/-- Total chain length after replacing one bucket, subtraction-free. -/
theorem sum_map_length_set : ∀ (l : List HBucket) (i : Nat) (x : HBucket),
    i < l.length →
    ((l.set i x).map List.length).sum + (l.getD i []).length =
      (l.map List.length).sum + x.length := by
  intro l
  induction l with
  | nil => intro i x hi; simp at hi
  | cons y rest ih =>
    intro i x hi
    cases i with
    | zero =>
      simp only [List.set_cons_zero, List.map_cons, List.sum_cons, List.getD_cons_zero]
      omega
    | succ n =>
      simp only [List.set_cons_succ, List.map_cons, List.sum_cons, List.getD_cons_succ]
      have := ih n x (by simpa using Nat.lt_of_succ_lt_succ hi)
      omega

/-- Entry count after replacing one bucket. -/
theorem hash_set_bucket_entries (h : StradaHash) (i : Nat) (nbkt : HBucket)
    (hi : i < h.buckets.length) :
    ({ h with buckets := h.buckets.set i nbkt } : StradaHash).num_entries +
      (h.buckets.getD i []).length = h.num_entries + nbkt.length :=
  sum_map_length_set h.buckets i nbkt hi

/-- Inserting a fresh key at its chain head (the state strada_hash_set
    builds before its load-factor check): invariant preserved, the new key
    found, other keys untouched, entry count up by one. -/
theorem hash_insert_spec (h h2 : StradaHash) (k : HKey) (v : StradaValue)
    (wf : HashWF h)
    (hnone : bucketFind (h.buckets.getD (hashIdx h.num_buckets k) []) k = none)
    (hh2 : h2 = { h with
      buckets := h.buckets.set (hashIdx h.num_buckets k)
        ((k, v) :: h.buckets.getD (hashIdx h.num_buckets k) []) }) :
    HashWF h2 ∧
    strada_hash_find h2 k = some v ∧
    (∀ k2, k2 ≠ k → strada_hash_find h2 k2 = strada_hash_find h k2) ∧
    h2.num_entries = h.num_entries + 1 := by
  subst hh2
  have hw := wf
  obtain ⟨hpos, hlen, hplace, hnodup⟩ := hw
  have hblt : hashIdx h.num_buckets k < h.buckets.length := by
    rw [hlen]; exact hashIdx_lt _ _ hpos
  have hknotin : k ∉ (h.buckets.getD (hashIdx h.num_buckets k) []).map Prod.fst := by
    intro hkmem
    obtain ⟨e, he, hfst⟩ := List.mem_map.mp hkmem
    apply bucketFind_none_iff.mp hnone e.2
    rw [show ((k, e.2) : HKey × StradaValue) = e from by rw [← hfst]]
    exact he
  refine ⟨?_, ?_, ?_, ?_⟩
  · apply hash_set_bucket_wf h _ _ wf hblt
    · intro e he
      rcases List.mem_cons.mp he with hkv | hbkt
      · rw [hkv]
      · exact hplace _ hblt e hbkt
    · simp only [List.map_cons, List.nodup_cons]
      exact ⟨hknotin, hnodup _ hblt⟩
  · rw [hash_set_bucket_find h _ _ hblt k, if_pos rfl]
    simp [bucketFind]
  · intro k2 hk2
    rw [hash_set_bucket_find h _ _ hblt k2]
    by_cases hbb : hashIdx h.num_buckets k2 = hashIdx h.num_buckets k
    · rw [if_pos hbb]
      have hfh : strada_hash_find h k2 =
          bucketFind (h.buckets.getD (hashIdx h.num_buckets k) []) k2 := by
        show bucketFind (h.buckets.getD (hashIdx h.num_buckets k2) []) k2 = _
        rw [hbb]
      rw [hfh]
      show (if k = k2 then some v else
        bucketFind (h.buckets.getD (hashIdx h.num_buckets k) []) k2) = _
      rw [if_neg (fun he => hk2 he.symm)]
    · rw [if_neg hbb]
  · have := hash_set_bucket_entries h (hashIdx h.num_buckets k)
      ((k, v) :: h.buckets.getD (hashIdx h.num_buckets k) []) hblt
    simp only [List.length_cons] at this
    omega

/-- Replacing an existing key in place (strada_hash_set's first branch):
    invariant preserved, the key now maps to the new value, other keys
    untouched. -/
theorem hash_replace_spec (h h2 : StradaHash) (k : HKey) (v : StradaValue)
    (wf : HashWF h)
    (hsome : (bucketFind (h.buckets.getD (hashIdx h.num_buckets k) []) k).isSome)
    (hh2 : h2 = { h with
      buckets := h.buckets.set (hashIdx h.num_buckets k)
        (bucketReplace (h.buckets.getD (hashIdx h.num_buckets k) []) k v) }) :
    HashWF h2 ∧
    strada_hash_find h2 k = some v ∧
    (∀ k2, k2 ≠ k → strada_hash_find h2 k2 = strada_hash_find h k2) := by
  subst hh2
  have hw := wf
  obtain ⟨hpos, hlen, hplace, hnodup⟩ := hw
  have hblt : hashIdx h.num_buckets k < h.buckets.length := by
    rw [hlen]; exact hashIdx_lt _ _ hpos
  refine ⟨?_, ?_, ?_⟩
  · apply hash_set_bucket_wf h _ _ wf hblt
    · intro e he
      have hkmem : e.1 ∈ (bucketReplace
          (h.buckets.getD (hashIdx h.num_buckets k) []) k v).map Prod.fst :=
        List.mem_map_of_mem Prod.fst he
      rw [bucketReplace_keys] at hkmem
      obtain ⟨e2, he2, hfst⟩ := List.mem_map.mp hkmem
      rw [← hfst]
      exact hplace _ hblt e2 he2
    · rw [bucketReplace_keys]
      exact hnodup _ hblt
  · rw [hash_set_bucket_find h _ _ hblt k, if_pos rfl]
    exact bucketFind_replace_self _ _ _ hsome
  · intro k2 hk2
    rw [hash_set_bucket_find h _ _ hblt k2]
    by_cases hbb : hashIdx h.num_buckets k2 = hashIdx h.num_buckets k
    · rw [if_pos hbb, bucketFind_replace_ne _ _ _ _ hk2]
      show _ = bucketFind (h.buckets.getD (hashIdx h.num_buckets k2) []) k2
      rw [hbb]
    · rw [if_neg hbb]

/-- C8: the public hash contract.  After set(k, v), find(k) yields v and
    exists(k) holds; after delete(k), exists(k) is false; set keeps
    the invariant (in particular one chain entry per key — a set on an
    existing key replaces, never duplicates) and leaves every other key's
    mapping unchanged; an insertion that pushes the entry count past the
    0.75 load factor (num_entries*4 > num_buckets*3, checked after the
    insert) doubles the bucket count; and a resize preserves every
    key-to-value mapping. -/
theorem C8_hash_contract (h : StradaHash) (k : HKey) (v : StradaValue)
    (wf : HashWF h) :
    strada_hash_find (strada_hash_set h k v) k = some v ∧
    strada_hash_exists (strada_hash_set h k v) k = true ∧
    strada_hash_exists (strada_hash_delete h k) k = false ∧
    (∀ k2, k2 ≠ k →
      strada_hash_find (strada_hash_set h k v) k2 = strada_hash_find h k2) ∧
    (∀ k2, strada_hash_find (strada_hash_resize h) k2 = strada_hash_find h k2) ∧
    ((strada_hash_exists h k = false ∧
        (h.num_entries + 1) * 4 > h.num_buckets * 3) →
      (strada_hash_set h k v).num_buckets = 2 * h.num_buckets) ∧
    HashWF (strada_hash_set h k v) := by
  have hw := wf
  obtain ⟨hpos, hlen, hplace, hnodup⟩ := hw
  have hblt : hashIdx h.num_buckets k < h.buckets.length := by
    rw [hlen]; exact hashIdx_lt _ _ hpos
  -- the delete conjunct is independent of the set analysis
  have hdelfind : strada_hash_find (strada_hash_delete h k) k = none := by
    rw [show strada_hash_delete h k = { h with
        buckets := h.buckets.set (hashIdx h.num_buckets k)
          (bucketRemove (h.buckets.getD (hashIdx h.num_buckets k) []) k) } from rfl]
    rw [hash_set_bucket_find h _ _ hblt k, if_pos rfl]
    exact bucketFind_remove_self _ _ (hnodup _ hblt)
  by_cases hex : (bucketFind (h.buckets.getD (hashIdx h.num_buckets k) []) k).isSome
  · -- replacement branch: no new entry, no resize
    have hset : strada_hash_set h k v = { h with
        buckets := h.buckets.set (hashIdx h.num_buckets k)
          (bucketReplace (h.buckets.getD (hashIdx h.num_buckets k) []) k v) } := by
      simp only [strada_hash_set]
      rw [if_pos hex]
    obtain ⟨hwf2, hfself, hfother⟩ := hash_replace_spec h _ k v wf hex rfl
    rw [hset]
    refine ⟨hfself, ?_, ?_, hfother, fun k2 => strada_hash_resize_find wf k2, ?_, hwf2⟩
    · show (strada_hash_find _ k).isSome = true
      rw [hfself]
      rfl
    · show (strada_hash_find (strada_hash_delete h k) k).isSome = false
      rw [hdelfind]
      rfl
    · rintro ⟨hfalse, _⟩
      exfalso
      have : strada_hash_find h k =
          bucketFind (h.buckets.getD (hashIdx h.num_buckets k) []) k := rfl
      rw [strada_hash_exists, this] at hfalse
      rw [hfalse] at hex
      exact Bool.false_ne_true hex
  · -- insertion branch
    have hnone : bucketFind (h.buckets.getD (hashIdx h.num_buckets k) []) k = none :=
      Option.not_isSome_iff_eq_none.mp hex
    obtain ⟨hwf2, hfself, hfother, hents⟩ := hash_insert_spec h _ k v wf hnone rfl
    by_cases hrs : (h.num_entries + 1) * 4 > h.num_buckets * 3
    · -- the insertion triggers a resize
      have hset : strada_hash_set h k v = strada_hash_resize { h with
          buckets := h.buckets.set (hashIdx h.num_buckets k)
            ((k, v) :: h.buckets.getD (hashIdx h.num_buckets k) []) } := by
        simp only [strada_hash_set]
        rw [if_neg hex, if_pos (by rw [hents] at *; exact hrs)]
      rw [hset]
      refine ⟨?_, ?_, ?_, ?_, fun k2 => strada_hash_resize_find wf k2, ?_, ?_⟩
      · rw [strada_hash_resize_find hwf2 k]
        exact hfself
      · show (strada_hash_find _ k).isSome = true
        rw [strada_hash_resize_find hwf2 k, hfself]
        rfl
      · show (strada_hash_find (strada_hash_delete h k) k).isSome = false
        rw [hdelfind]
        rfl
      · intro k2 hk2
        rw [strada_hash_resize_find hwf2 k2]
        exact hfother k2 hk2
      · intro _
        show _ * 2 = 2 * h.num_buckets
        ring
      · exact strada_hash_resize_wf hwf2
    · -- no resize needed
      have hset : strada_hash_set h k v = { h with
          buckets := h.buckets.set (hashIdx h.num_buckets k)
            ((k, v) :: h.buckets.getD (hashIdx h.num_buckets k) []) } := by
        simp only [strada_hash_set]
        rw [if_neg hex, if_neg (by rw [hents] at *; exact hrs)]
      rw [hset]
      refine ⟨hfself, ?_, ?_, hfother, fun k2 => strada_hash_resize_find wf k2, ?_, hwf2⟩
      · show (strada_hash_find _ k).isSome = true
        rw [hfself]
        rfl
      · show (strada_hash_find (strada_hash_delete h k) k).isSome = false
        rw [hdelfind]
        rfl
      · rintro ⟨_, hcond⟩
        exact absurd hcond hrs

/-- Witness for C8 at a fresh 16-bucket table, key "k" (byte 107), value 1. -/
theorem C8_hash_contract_witness :
    HashWF ⟨16, List.replicate 16 []⟩ ∧
    (strada_hash_find (strada_hash_set ⟨16, List.replicate 16 []⟩ [107]
        (strada_new_int 1)) [107] = some (strada_new_int 1) ∧
     strada_hash_exists (strada_hash_set ⟨16, List.replicate 16 []⟩ [107]
        (strada_new_int 1)) [107] = true ∧
     strada_hash_exists (strada_hash_delete ⟨16, List.replicate 16 []⟩ [107])
        [107] = false ∧
     (∀ k2, k2 ≠ [107] →
       strada_hash_find (strada_hash_set ⟨16, List.replicate 16 []⟩ [107]
          (strada_new_int 1)) k2 = strada_hash_find ⟨16, List.replicate 16 []⟩ k2) ∧
     (∀ k2, strada_hash_find (strada_hash_resize ⟨16, List.replicate 16 []⟩) k2 =
       strada_hash_find ⟨16, List.replicate 16 []⟩ k2) ∧
     ((strada_hash_exists (⟨16, List.replicate 16 []⟩ : StradaHash) [107] = false ∧
        ((⟨16, List.replicate 16 []⟩ : StradaHash).num_entries + 1) * 4 >
          (⟨16, List.replicate 16 []⟩ : StradaHash).num_buckets * 3) →
      (strada_hash_set ⟨16, List.replicate 16 []⟩ [107]
        (strada_new_int 1)).num_buckets =
        2 * (⟨16, List.replicate 16 []⟩ : StradaHash).num_buckets) ∧
     HashWF (strada_hash_set ⟨16, List.replicate 16 []⟩ [107] (strada_new_int 1))) :=
  ⟨by decide, C8_hash_contract ⟨16, List.replicate 16 []⟩ [107] (strada_new_int 1)
    (by decide)⟩

/-- A parent fold that has already failed stays failed. -/
theorem lookupFoldStep_none (F : String → List String → Option (List String × Option Nat)) :
    ∀ ps : List String, ps.foldl (lookupFoldStep F) none = none := by
  intro ps
  induction ps with
  | nil => rfl
  | cons p rest ih => exact ih

/-- A parent fold that has already found a method keeps it. -/
theorem lookupFoldStep_found (F : String → List String → Option (List String × Option Nat)) :
    ∀ (ps : List String) (v : List String) (f : Nat),
      ps.foldl (lookupFoldStep F) (some (v, some f)) = some (v, some f) := by
  intro ps
  induction ps with
  | nil => intro v f; rfl
  | cons p rest ih => intro v f; exact ih v f

/-- If every step of one parent fold is reproduced by another step
    function, a successful fold is reproduced as well. -/
theorem lookupFoldStep_mono (F1 F2 : String → List String → Option (List String × Option Nat))
    (hF : ∀ p v r, F1 p v = some r → F2 p v = some r) :
    ∀ (ps : List String) (acc : Option (List String × Option Nat)) (res : List String × Option Nat),
      ps.foldl (lookupFoldStep F1) acc = some res →
      ps.foldl (lookupFoldStep F2) acc = some res := by
  intro ps
  induction ps with
  | nil => intro acc res h; exact h
  | cons p rest ih =>
    intro acc res h
    match acc with
    | none =>
      rw [lookupFoldStep_none] at h
      exact Option.noConfusion h
    | some (v, some f) =>
      exact ih (some (v, some f)) res h
    | some (v, none) =>
      rw [List.foldl_cons] at h ⊢
      cases hF1 : F1 p v with
      | none =>
        rw [show lookupFoldStep F1 (some (v, none)) p = F1 p v from rfl, hF1,
          lookupFoldStep_none] at h
        exact Option.noConfusion h
      | some r2 =>
        rw [show lookupFoldStep F1 (some (v, none)) p = F1 p v from rfl, hF1] at h
        rw [show lookupFoldStep F2 (some (v, none)) p = F2 p v from rfl, hF p v r2 hF1]
        exact ih (some r2) res h

/-- One-level unfolding of the capped lookup at positive depth. -/
theorem oop_lookup_method_in_succ (reg : Registry) (fuel : Nat)
    (package meth : String) (visited : List String) :
    oop_lookup_method_in reg (fuel + 1) package meth visited =
      (if package = "" then some (visited, none)
       else if package ∈ visited then some (visited, none)
       else
         let visited2 := if visited.length < 64 then visited ++ [package] else visited
         match oop_find_package reg package with
         | none => some (visited2, none)
         | some pkg =>
           match findMethod pkg meth with
           | some f => some (visited2, some f)
           | none =>
             pkg.parents.foldl
               (lookupFoldStep (fun par v => oop_lookup_method_in reg fuel par meth v))
               (some (visited2, none))) := rfl

/-- One-level unfolding of the spec's uncapped lookup at positive depth. -/
theorem spec_lookup_method_in_succ (reg : Registry) (fuel : Nat)
    (package meth : String) (visited : List String) :
    spec_lookup_method_in reg (fuel + 1) package meth visited =
      (if package = "" then some (visited, none)
       else if package ∈ visited then some (visited, none)
       else
         let visited2 := visited ++ [package]
         match oop_find_package reg package with
         | none => some (visited2, none)
         | some pkg =>
           match findMethod pkg meth with
           | some f => some (visited2, some f)
           | none =>
             pkg.parents.foldl
               (lookupFoldStep (fun par v => spec_lookup_method_in reg fuel par meth v))
               (some (visited2, none))) := rfl

/-- A finished lookup stays finished, with the same answer, at any deeper
    recursion budget. -/
theorem oop_lookup_method_in_mono (reg : Registry) (meth : String) :
    ∀ (fuel : Nat) (pkg : String) (vis : List String) (res : List String × Option Nat),
      oop_lookup_method_in reg fuel pkg meth vis = some res →
      oop_lookup_method_in reg (fuel + 1) pkg meth vis = some res := by
  intro fuel
  induction fuel with
  | zero => intro pkg vis res h; exact Option.noConfusion h
  | succ f ih =>
    intro pkg vis res h
    rw [oop_lookup_method_in_succ] at h
    rw [oop_lookup_method_in_succ]
    by_cases hpe : pkg = ""
    · rw [if_pos hpe] at h ⊢
      exact h
    · rw [if_neg hpe] at h ⊢
      by_cases hmem : pkg ∈ vis
      · rw [if_pos hmem] at h ⊢
        exact h
      · rw [if_neg hmem] at h ⊢
        cases hfind : oop_find_package reg pkg with
        | none =>
          simp only [hfind] at h ⊢
          exact h
        | some p =>
          simp only [hfind] at h ⊢
          cases hfm : findMethod p meth with
          | some fM =>
            simp only [hfm] at h ⊢
            exact h
          | none =>
            simp only [hfm] at h ⊢
            exact lookupFoldStep_mono _ _ (fun p2 v2 r2 hp2 => ih p2 v2 r2 hp2)
              p.parents _ res h

/-- Monotonicity across any fuel gap. -/
theorem oop_lookup_method_in_mono_le (reg : Registry) (meth : String)
    {f g : Nat} (hfg : f ≤ g) (pkg : String) (vis : List String)
    (res : List String × Option Nat)
    (h : oop_lookup_method_in reg f pkg meth vis = some res) :
    oop_lookup_method_in reg g pkg meth vis = some res := by
  induction g with
  | zero =>
    have : f = 0 := Nat.le_zero.mp hfg
    rw [← this]
    exact h
  | succ g2 ih =>
    rcases Nat.lt_or_ge f (g2 + 1) with hlt | hge
    · exact oop_lookup_method_in_mono reg meth g2 pkg vis res
        (ih (Nat.lt_succ_iff.mp hlt))
    · have : f = g2 + 1 := Nat.le_antisymm hfg hge
      rw [← this]
      exact h

/-- One DFS step through a methodless package with a single parent, while
    the visited array still has room: the package is recorded and the
    search descends into the parent. -/
theorem lookup_step_one_parent (reg : Registry) (f : Nat)
    (pkgName meth par : String) (vis : List String)
    (h1 : pkgName ≠ "") (h2 : pkgName ∉ vis)
    (h3 : oop_find_package reg pkgName = some ⟨pkgName, [par], []⟩)
    (hlen : vis.length < 64) :
    oop_lookup_method_in reg (f + 1) pkgName meth vis =
      oop_lookup_method_in reg f par meth (vis ++ [pkgName]) := by
  rw [oop_lookup_method_in_succ, if_neg h1, if_neg h2]
  simp only [h3]
  rw [if_pos hlen]
  rfl

/-- The same step once the visited array is full: the package can no longer
    be recorded, and the search descends with the visited array unchanged. -/
theorem lookup_step_one_parent_full (reg : Registry) (f : Nat)
    (pkgName meth par : String) (vis : List String)
    (h1 : pkgName ≠ "") (h2 : pkgName ∉ vis)
    (h3 : oop_find_package reg pkgName = some ⟨pkgName, [par], []⟩)
    (hlen : ¬ vis.length < 64) :
    oop_lookup_method_in reg (f + 1) pkgName meth vis =
      oop_lookup_method_in reg f par meth vis := by
  rw [oop_lookup_method_in_succ, if_neg h1, if_neg h2]
  simp only [h3]
  rw [if_neg hlen]
  rfl

/-- With the visited array full and the X ⇄ Y cycle unrecorded, the DFS
    ping-pongs between X and Y forever: no recursion budget finishes it. -/
theorem badReg_loop :
    ∀ (f : Nat) (vis : List String), "X" ∉ vis → "Y" ∉ vis → ¬ vis.length < 64 →
      oop_lookup_method_in badReg f "X" "m" vis = none ∧
      oop_lookup_method_in badReg f "Y" "m" vis = none := by
  intro f
  induction f with
  | zero => intro vis _ _ _; exact ⟨rfl, rfl⟩
  | succ f ih =>
    intro vis hx hy hl
    constructor
    · rw [lookup_step_one_parent_full badReg f "X" "m" "Y" vis (by decide) hx
        (by decide) hl]
      exact (ih vis hx hy hl).2
    · rw [lookup_step_one_parent_full badReg f "Y" "m" "X" vis (by decide) hy
        (by decide) hl]
      exact (ih vis hx hy hl).1

/-- Walking the 64-package chain consumes the whole visited array: after
    it, the search stands at X with the array full. -/
theorem badReg_chain (f : Nat) :
    oop_lookup_method_in badReg (f + 64) "P0" "m" [] =
      oop_lookup_method_in badReg f "X" "m" visP := by
  calc oop_lookup_method_in badReg (f + 64) "P0" "m" []
      = oop_lookup_method_in badReg (f + 63) "P1" "m" ["P0"] := by
        rw [show f + 64 = (f + 63) + 1 from by omega]
        exact lookup_step_one_parent badReg (f + 63) "P0" "m" "P1" []
          (by decide) (by decide) (by decide) (by decide)
    _ = oop_lookup_method_in badReg (f + 62) "P2" "m" ["P0", "P1"] := by
        rw [show f + 63 = (f + 62) + 1 from by omega]
        exact lookup_step_one_parent badReg (f + 62) "P1" "m" "P2" ["P0"]
          (by decide) (by decide) (by decide) (by decide)
    _ = oop_lookup_method_in badReg (f + 61) "P3" "m" ["P0", "P1", "P2"] := by
        rw [show f + 62 = (f + 61) + 1 from by omega]
        exact lookup_step_one_parent badReg (f + 61) "P2" "m" "P3" ["P0", "P1"]
          (by decide) (by decide) (by decide) (by decide)
    _ = oop_lookup_method_in badReg (f + 60) "P4" "m" ["P0", "P1", "P2", "P3"] := by
        rw [show f + 61 = (f + 60) + 1 from by omega]
        exact lookup_step_one_parent badReg (f + 60) "P3" "m" "P4" ["P0", "P1", "P2"]
          (by decide) (by decide) (by decide) (by decide)
    _ = oop_lookup_method_in badReg (f + 59) "P5" "m" ["P0", "P1", "P2", "P3", "P4"] := by
        rw [show f + 60 = (f + 59) + 1 from by omega]
        exact lookup_step_one_parent badReg (f + 59) "P4" "m" "P5" ["P0", "P1", "P2", "P3"]
          (by decide) (by decide) (by decide) (by decide)
    _ = oop_lookup_method_in badReg (f + 58) "P6" "m" ["P0", "P1", "P2", "P3", "P4", "P5"] := by
        rw [show f + 59 = (f + 58) + 1 from by omega]
        exact lookup_step_one_parent badReg (f + 58) "P5" "m" "P6" ["P0", "P1", "P2", "P3", "P4"]
          (by decide) (by decide) (by decide) (by decide)
    _ = oop_lookup_method_in badReg (f + 57) "P7" "m" ["P0", "P1", "P2", "P3", "P4", "P5", "P6"] := by
        rw [show f + 58 = (f + 57) + 1 from by omega]
        exact lookup_step_one_parent badReg (f + 57) "P6" "m" "P7" ["P0", "P1", "P2", "P3", "P4", "P5"]
          (by decide) (by decide) (by decide) (by decide)
    _ = oop_lookup_method_in badReg (f + 56) "P8" "m" ["P0", "P1", "P2", "P3", "P4", "P5", "P6", "P7"] := by
        rw [show f + 57 = (f + 56) + 1 from by omega]
        exact lookup_step_one_parent badReg (f + 56) "P7" "m" "P8" ["P0", "P1", "P2", "P3", "P4", "P5", "P6"]
          (by decide) (by decide) (by decide) (by decide)
    _ = oop_lookup_method_in badReg (f + 55) "P9" "m" ["P0", "P1", "P2", "P3", "P4", "P5", "P6", "P7", "P8"] := by
        rw [show f + 56 = (f + 55) + 1 from by omega]
        exact lookup_step_one_parent badReg (f + 55) "P8" "m" "P9" ["P0", "P1", "P2", "P3", "P4", "P5", "P6", "P7"]
          (by decide) (by decide) (by decide) (by decide)
    _ = oop_lookup_method_in badReg (f + 54) "P10" "m" ["P0", "P1", "P2", "P3", "P4", "P5", "P6", "P7", "P8", "P9"] := by
        rw [show f + 55 = (f + 54) + 1 from by omega]
        exact lookup_step_one_parent badReg (f + 54) "P9" "m" "P10" ["P0", "P1", "P2", "P3", "P4", "P5", "P6", "P7", "P8"]
          (by decide) (by decide) (by decide) (by decide)
    _ = oop_lookup_method_in badReg (f + 53) "P11" "m" ["P0", "P1", "P2", "P3", "P4", "P5", "P6", "P7", "P8", "P9", "P10"] := by
        rw [show f + 54 = (f + 53) + 1 from by omega]
        exact lookup_step_one_parent badReg (f + 53) "P10" "m" "P11" ["P0", "P1", "P2", "P3", "P4", "P5", "P6", "P7", "P8", "P9"]
          (by decide) (by decide) (by decide) (by decide)
    _ = oop_lookup_method_in badReg (f + 52) "P12" "m" ["P0", "P1", "P2", "P3", "P4", "P5", "P6", "P7", "P8", "P9", "P10", "P11"] := by
        rw [show f + 53 = (f + 52) + 1 from by omega]
        exact lookup_step_one_parent badReg (f + 52) "P11" "m" "P12" ["P0", "P1", "P2", "P3", "P4", "P5", "P6", "P7", "P8", "P9", "P10"]
          (by decide) (by decide) (by decide) (by decide)
    _ = oop_lookup_method_in badReg (f + 51) "P13" "m" ["P0", "P1", "P2", "P3", "P4", "P5", "P6", "P7", "P8", "P9", "P10", "P11", "P12"] := by
        rw [show f + 52 = (f + 51) + 1 from by omega]
        exact lookup_step_one_parent badReg (f + 51) "P12" "m" "P13" ["P0", "P1", "P2", "P3", "P4", "P5", "P6", "P7", "P8", "P9", "P10", "P11"]
          (by decide) (by decide) (by decide) (by decide)
    _ = oop_lookup_method_in badReg (f + 50) "P14" "m" ["P0", "P1", "P2", "P3", "P4", "P5", "P6", "P7", "P8", "P9", "P10", "P11", "P12", "P13"] := by
        rw [show f + 51 = (f + 50) + 1 from by omega]
        exact lookup_step_one_parent badReg (f + 50) "P13" "m" "P14" ["P0", "P1", "P2", "P3", "P4", "P5", "P6", "P7", "P8", "P9", "P10", "P11", "P12"]
          (by decide) (by decide) (by decide) (by decide)
    _ = oop_lookup_method_in badReg (f + 49) "P15" "m" ["P0", "P1", "P2", "P3", "P4", "P5", "P6", "P7", "P8", "P9", "P10", "P11", "P12", "P13", "P14"] := by
        rw [show f + 50 = (f + 49) + 1 from by omega]
        exact lookup_step_one_parent badReg (f + 49) "P14" "m" "P15" ["P0", "P1", "P2", "P3", "P4", "P5", "P6", "P7", "P8", "P9", "P10", "P11", "P12", "P13"]
          (by decide) (by decide) (by decide) (by decide)
    _ = oop_lookup_method_in badReg (f + 48) "P16" "m" ["P0", "P1", "P2", "P3", "P4", "P5", "P6", "P7", "P8", "P9", "P10", "P11", "P12", "P13", "P14", "P15"] := by
        rw [show f + 49 = (f + 48) + 1 from by omega]
        exact lookup_step_one_parent badReg (f + 48) "P15" "m" "P16" ["P0", "P1", "P2", "P3", "P4", "P5", "P6", "P7", "P8", "P9", "P10", "P11", "P12", "P13", "P14"]
          (by decide) (by decide) (by decide) (by decide)
    _ = oop_lookup_method_in badReg (f + 47) "P17" "m" ["P0", "P1", "P2", "P3", "P4", "P5", "P6", "P7", "P8", "P9", "P10", "P11", "P12", "P13", "P14", "P15", "P16"] := by
        rw [show f + 48 = (f + 47) + 1 from by omega]
        exact lookup_step_one_parent badReg (f + 47) "P16" "m" "P17" ["P0", "P1", "P2", "P3", "P4", "P5", "P6", "P7", "P8", "P9", "P10", "P11", "P12", "P13", "P14", "P15"]
          (by decide) (by decide) (by decide) (by decide)
    _ = oop_lookup_method_in badReg (f + 46) "P18" "m" ["P0", "P1", "P2", "P3", "P4", "P5", "P6", "P7", "P8", "P9", "P10", "P11", "P12", "P13", "P14", "P15", "P16", "P17"] := by
        rw [show f + 47 = (f + 46) + 1 from by omega]
        exact lookup_step_one_parent badReg (f + 46) "P17" "m" "P18" ["P0", "P1", "P2", "P3", "P4", "P5", "P6", "P7", "P8", "P9", "P10", "P11", "P12", "P13", "P14", "P15", "P16"]
          (by decide) (by decide) (by decide) (by decide)
    _ = oop_lookup_method_in badReg (f + 45) "P19" "m" ["P0", "P1", "P2", "P3", "P4", "P5", "P6", "P7", "P8", "P9", "P10", "P11", "P12", "P13", "P14", "P15", "P16", "P17", "P18"] := by
        rw [show f + 46 = (f + 45) + 1 from by omega]
        exact lookup_step_one_parent badReg (f + 45) "P18" "m" "P19" ["P0", "P1", "P2", "P3", "P4", "P5", "P6", "P7", "P8", "P9", "P10", "P11", "P12", "P13", "P14", "P15", "P16", "P17"]
          (by decide) (by decide) (by decide) (by decide)
    _ = oop_lookup_method_in badReg (f + 44) "P20" "m" ["P0", "P1", "P2", "P3", "P4", "P5", "P6", "P7", "P8", "P9", "P10", "P11", "P12", "P13", "P14", "P15", "P16", "P17", "P18", "P19"] := by
        rw [show f + 45 = (f + 44) + 1 from by omega]
        exact lookup_step_one_parent badReg (f + 44) "P19" "m" "P20" ["P0", "P1", "P2", "P3", "P4", "P5", "P6", "P7", "P8", "P9", "P10", "P11", "P12", "P13", "P14", "P15", "P16", "P17", "P18"]
          (by decide) (by decide) (by decide) (by decide)
    _ = oop_lookup_method_in badReg (f + 43) "P21" "m" ["P0", "P1", "P2", "P3", "P4", "P5", "P6", "P7", "P8", "P9", "P10", "P11", "P12", "P13", "P14", "P15", "P16", "P17", "P18", "P19", "P20"] := by
        rw [show f + 44 = (f + 43) + 1 from by omega]
        exact lookup_step_one_parent badReg (f + 43) "P20" "m" "P21" ["P0", "P1", "P2", "P3", "P4", "P5", "P6", "P7", "P8", "P9", "P10", "P11", "P12", "P13", "P14", "P15", "P16", "P17", "P18", "P19"]
          (by decide) (by decide) (by decide) (by decide)
    _ = oop_lookup_method_in badReg (f + 42) "P22" "m" ["P0", "P1", "P2", "P3", "P4", "P5", "P6", "P7", "P8", "P9", "P10", "P11", "P12", "P13", "P14", "P15", "P16", "P17", "P18", "P19", "P20", "P21"] := by
        rw [show f + 43 = (f + 42) + 1 from by omega]
        exact lookup_step_one_parent badReg (f + 42) "P21" "m" "P22" ["P0", "P1", "P2", "P3", "P4", "P5", "P6", "P7", "P8", "P9", "P10", "P11", "P12", "P13", "P14", "P15", "P16", "P17", "P18", "P19", "P20"]
          (by decide) (by decide) (by decide) (by decide)
    _ = oop_lookup_method_in badReg (f + 41) "P23" "m" ["P0", "P1", "P2", "P3", "P4", "P5", "P6", "P7", "P8", "P9", "P10", "P11", "P12", "P13", "P14", "P15", "P16", "P17", "P18", "P19", "P20", "P21", "P22"] := by
        rw [show f + 42 = (f + 41) + 1 from by omega]
        exact lookup_step_one_parent badReg (f + 41) "P22" "m" "P23" ["P0", "P1", "P2", "P3", "P4", "P5", "P6", "P7", "P8", "P9", "P10", "P11", "P12", "P13", "P14", "P15", "P16", "P17", "P18", "P19", "P20", "P21"]
          (by decide) (by decide) (by decide) (by decide)
    _ = oop_lookup_method_in badReg (f + 40) "P24" "m" ["P0", "P1", "P2", "P3", "P4", "P5", "P6", "P7", "P8", "P9", "P10", "P11", "P12", "P13", "P14", "P15", "P16", "P17", "P18", "P19", "P20", "P21", "P22", "P23"] := by
        rw [show f + 41 = (f + 40) + 1 from by omega]
        exact lookup_step_one_parent badReg (f + 40) "P23" "m" "P24" ["P0", "P1", "P2", "P3", "P4", "P5", "P6", "P7", "P8", "P9", "P10", "P11", "P12", "P13", "P14", "P15", "P16", "P17", "P18", "P19", "P20", "P21", "P22"]
          (by decide) (by decide) (by decide) (by decide)
    _ = oop_lookup_method_in badReg (f + 39) "P25" "m" ["P0", "P1", "P2", "P3", "P4", "P5", "P6", "P7", "P8", "P9", "P10", "P11", "P12", "P13", "P14", "P15", "P16", "P17", "P18", "P19", "P20", "P21", "P22", "P23", "P24"] := by
        rw [show f + 40 = (f + 39) + 1 from by omega]
        exact lookup_step_one_parent badReg (f + 39) "P24" "m" "P25" ["P0", "P1", "P2", "P3", "P4", "P5", "P6", "P7", "P8", "P9", "P10", "P11", "P12", "P13", "P14", "P15", "P16", "P17", "P18", "P19", "P20", "P21", "P22", "P23"]
          (by decide) (by decide) (by decide) (by decide)
    _ = oop_lookup_method_in badReg (f + 38) "P26" "m" ["P0", "P1", "P2", "P3", "P4", "P5", "P6", "P7", "P8", "P9", "P10", "P11", "P12", "P13", "P14", "P15", "P16", "P17", "P18", "P19", "P20", "P21", "P22", "P23", "P24", "P25"] := by
        rw [show f + 39 = (f + 38) + 1 from by omega]
        exact lookup_step_one_parent badReg (f + 38) "P25" "m" "P26" ["P0", "P1", "P2", "P3", "P4", "P5", "P6", "P7", "P8", "P9", "P10", "P11", "P12", "P13", "P14", "P15", "P16", "P17", "P18", "P19", "P20", "P21", "P22", "P23", "P24"]
          (by decide) (by decide) (by decide) (by decide)
    _ = oop_lookup_method_in badReg (f + 37) "P27" "m" ["P0", "P1", "P2", "P3", "P4", "P5", "P6", "P7", "P8", "P9", "P10", "P11", "P12", "P13", "P14", "P15", "P16", "P17", "P18", "P19", "P20", "P21", "P22", "P23", "P24", "P25", "P26"] := by
        rw [show f + 38 = (f + 37) + 1 from by omega]
        exact lookup_step_one_parent badReg (f + 37) "P26" "m" "P27" ["P0", "P1", "P2", "P3", "P4", "P5", "P6", "P7", "P8", "P9", "P10", "P11", "P12", "P13", "P14", "P15", "P16", "P17", "P18", "P19", "P20", "P21", "P22", "P23", "P24", "P25"]
          (by decide) (by decide) (by decide) (by decide)
    _ = oop_lookup_method_in badReg (f + 36) "P28" "m" ["P0", "P1", "P2", "P3", "P4", "P5", "P6", "P7", "P8", "P9", "P10", "P11", "P12", "P13", "P14", "P15", "P16", "P17", "P18", "P19", "P20", "P21", "P22", "P23", "P24", "P25", "P26", "P27"] := by
        rw [show f + 37 = (f + 36) + 1 from by omega]
        exact lookup_step_one_parent badReg (f + 36) "P27" "m" "P28" ["P0", "P1", "P2", "P3", "P4", "P5", "P6", "P7", "P8", "P9", "P10", "P11", "P12", "P13", "P14", "P15", "P16", "P17", "P18", "P19", "P20", "P21", "P22", "P23", "P24", "P25", "P26"]
          (by decide) (by decide) (by decide) (by decide)
    _ = oop_lookup_method_in badReg (f + 35) "P29" "m" ["P0", "P1", "P2", "P3", "P4", "P5", "P6", "P7", "P8", "P9", "P10", "P11", "P12", "P13", "P14", "P15", "P16", "P17", "P18", "P19", "P20", "P21", "P22", "P23", "P24", "P25", "P26", "P27", "P28"] := by
        rw [show f + 36 = (f + 35) + 1 from by omega]
        exact lookup_step_one_parent badReg (f + 35) "P28" "m" "P29" ["P0", "P1", "P2", "P3", "P4", "P5", "P6", "P7", "P8", "P9", "P10", "P11", "P12", "P13", "P14", "P15", "P16", "P17", "P18", "P19", "P20", "P21", "P22", "P23", "P24", "P25", "P26", "P27"]
          (by decide) (by decide) (by decide) (by decide)
    _ = oop_lookup_method_in badReg (f + 34) "P30" "m" ["P0", "P1", "P2", "P3", "P4", "P5", "P6", "P7", "P8", "P9", "P10", "P11", "P12", "P13", "P14", "P15", "P16", "P17", "P18", "P19", "P20", "P21", "P22", "P23", "P24", "P25", "P26", "P27", "P28", "P29"] := by
        rw [show f + 35 = (f + 34) + 1 from by omega]
        exact lookup_step_one_parent badReg (f + 34) "P29" "m" "P30" ["P0", "P1", "P2", "P3", "P4", "P5", "P6", "P7", "P8", "P9", "P10", "P11", "P12", "P13", "P14", "P15", "P16", "P17", "P18", "P19", "P20", "P21", "P22", "P23", "P24", "P25", "P26", "P27", "P28"]
          (by decide) (by decide) (by decide) (by decide)
    _ = oop_lookup_method_in badReg (f + 33) "P31" "m" ["P0", "P1", "P2", "P3", "P4", "P5", "P6", "P7", "P8", "P9", "P10", "P11", "P12", "P13", "P14", "P15", "P16", "P17", "P18", "P19", "P20", "P21", "P22", "P23", "P24", "P25", "P26", "P27", "P28", "P29", "P30"] := by
        rw [show f + 34 = (f + 33) + 1 from by omega]
        exact lookup_step_one_parent badReg (f + 33) "P30" "m" "P31" ["P0", "P1", "P2", "P3", "P4", "P5", "P6", "P7", "P8", "P9", "P10", "P11", "P12", "P13", "P14", "P15", "P16", "P17", "P18", "P19", "P20", "P21", "P22", "P23", "P24", "P25", "P26", "P27", "P28", "P29"]
          (by decide) (by decide) (by decide) (by decide)
    _ = oop_lookup_method_in badReg (f + 32) "P32" "m" ["P0", "P1", "P2", "P3", "P4", "P5", "P6", "P7", "P8", "P9", "P10", "P11", "P12", "P13", "P14", "P15", "P16", "P17", "P18", "P19", "P20", "P21", "P22", "P23", "P24", "P25", "P26", "P27", "P28", "P29", "P30", "P31"] := by
        rw [show f + 33 = (f + 32) + 1 from by omega]
        exact lookup_step_one_parent badReg (f + 32) "P31" "m" "P32" ["P0", "P1", "P2", "P3", "P4", "P5", "P6", "P7", "P8", "P9", "P10", "P11", "P12", "P13", "P14", "P15", "P16", "P17", "P18", "P19", "P20", "P21", "P22", "P23", "P24", "P25", "P26", "P27", "P28", "P29", "P30"]
          (by decide) (by decide) (by decide) (by decide)
    _ = oop_lookup_method_in badReg (f + 31) "P33" "m" ["P0", "P1", "P2", "P3", "P4", "P5", "P6", "P7", "P8", "P9", "P10", "P11", "P12", "P13", "P14", "P15", "P16", "P17", "P18", "P19", "P20", "P21", "P22", "P23", "P24", "P25", "P26", "P27", "P28", "P29", "P30", "P31", "P32"] := by
        rw [show f + 32 = (f + 31) + 1 from by omega]
        exact lookup_step_one_parent badReg (f + 31) "P32" "m" "P33" ["P0", "P1", "P2", "P3", "P4", "P5", "P6", "P7", "P8", "P9", "P10", "P11", "P12", "P13", "P14", "P15", "P16", "P17", "P18", "P19", "P20", "P21", "P22", "P23", "P24", "P25", "P26", "P27", "P28", "P29", "P30", "P31"]
          (by decide) (by decide) (by decide) (by decide)
    _ = oop_lookup_method_in badReg (f + 30) "P34" "m" ["P0", "P1", "P2", "P3", "P4", "P5", "P6", "P7", "P8", "P9", "P10", "P11", "P12", "P13", "P14", "P15", "P16", "P17", "P18", "P19", "P20", "P21", "P22", "P23", "P24", "P25", "P26", "P27", "P28", "P29", "P30", "P31", "P32", "P33"] := by
        rw [show f + 31 = (f + 30) + 1 from by omega]
        exact lookup_step_one_parent badReg (f + 30) "P33" "m" "P34" ["P0", "P1", "P2", "P3", "P4", "P5", "P6", "P7", "P8", "P9", "P10", "P11", "P12", "P13", "P14", "P15", "P16", "P17", "P18", "P19", "P20", "P21", "P22", "P23", "P24", "P25", "P26", "P27", "P28", "P29", "P30", "P31", "P32"]
          (by decide) (by decide) (by decide) (by decide)
    _ = oop_lookup_method_in badReg (f + 29) "P35" "m" ["P0", "P1", "P2", "P3", "P4", "P5", "P6", "P7", "P8", "P9", "P10", "P11", "P12", "P13", "P14", "P15", "P16", "P17", "P18", "P19", "P20", "P21", "P22", "P23", "P24", "P25", "P26", "P27", "P28", "P29", "P30", "P31", "P32", "P33", "P34"] := by
        rw [show f + 30 = (f + 29) + 1 from by omega]
        exact lookup_step_one_parent badReg (f + 29) "P34" "m" "P35" ["P0", "P1", "P2", "P3", "P4", "P5", "P6", "P7", "P8", "P9", "P10", "P11", "P12", "P13", "P14", "P15", "P16", "P17", "P18", "P19", "P20", "P21", "P22", "P23", "P24", "P25", "P26", "P27", "P28", "P29", "P30", "P31", "P32", "P33"]
          (by decide) (by decide) (by decide) (by decide)
    _ = oop_lookup_method_in badReg (f + 28) "P36" "m" ["P0", "P1", "P2", "P3", "P4", "P5", "P6", "P7", "P8", "P9", "P10", "P11", "P12", "P13", "P14", "P15", "P16", "P17", "P18", "P19", "P20", "P21", "P22", "P23", "P24", "P25", "P26", "P27", "P28", "P29", "P30", "P31", "P32", "P33", "P34", "P35"] := by
        rw [show f + 29 = (f + 28) + 1 from by omega]
        exact lookup_step_one_parent badReg (f + 28) "P35" "m" "P36" ["P0", "P1", "P2", "P3", "P4", "P5", "P6", "P7", "P8", "P9", "P10", "P11", "P12", "P13", "P14", "P15", "P16", "P17", "P18", "P19", "P20", "P21", "P22", "P23", "P24", "P25", "P26", "P27", "P28", "P29", "P30", "P31", "P32", "P33", "P34"]
          (by decide) (by decide) (by decide) (by decide)
    _ = oop_lookup_method_in badReg (f + 27) "P37" "m" ["P0", "P1", "P2", "P3", "P4", "P5", "P6", "P7", "P8", "P9", "P10", "P11", "P12", "P13", "P14", "P15", "P16", "P17", "P18", "P19", "P20", "P21", "P22", "P23", "P24", "P25", "P26", "P27", "P28", "P29", "P30", "P31", "P32", "P33", "P34", "P35", "P36"] := by
        rw [show f + 28 = (f + 27) + 1 from by omega]
        exact lookup_step_one_parent badReg (f + 27) "P36" "m" "P37" ["P0", "P1", "P2", "P3", "P4", "P5", "P6", "P7", "P8", "P9", "P10", "P11", "P12", "P13", "P14", "P15", "P16", "P17", "P18", "P19", "P20", "P21", "P22", "P23", "P24", "P25", "P26", "P27", "P28", "P29", "P30", "P31", "P32", "P33", "P34", "P35"]
          (by decide) (by decide) (by decide) (by decide)
    _ = oop_lookup_method_in badReg (f + 26) "P38" "m" ["P0", "P1", "P2", "P3", "P4", "P5", "P6", "P7", "P8", "P9", "P10", "P11", "P12", "P13", "P14", "P15", "P16", "P17", "P18", "P19", "P20", "P21", "P22", "P23", "P24", "P25", "P26", "P27", "P28", "P29", "P30", "P31", "P32", "P33", "P34", "P35", "P36", "P37"] := by
        rw [show f + 27 = (f + 26) + 1 from by omega]
        exact lookup_step_one_parent badReg (f + 26) "P37" "m" "P38" ["P0", "P1", "P2", "P3", "P4", "P5", "P6", "P7", "P8", "P9", "P10", "P11", "P12", "P13", "P14", "P15", "P16", "P17", "P18", "P19", "P20", "P21", "P22", "P23", "P24", "P25", "P26", "P27", "P28", "P29", "P30", "P31", "P32", "P33", "P34", "P35", "P36"]
          (by decide) (by decide) (by decide) (by decide)
    _ = oop_lookup_method_in badReg (f + 25) "P39" "m" ["P0", "P1", "P2", "P3", "P4", "P5", "P6", "P7", "P8", "P9", "P10", "P11", "P12", "P13", "P14", "P15", "P16", "P17", "P18", "P19", "P20", "P21", "P22", "P23", "P24", "P25", "P26", "P27", "P28", "P29", "P30", "P31", "P32", "P33", "P34", "P35", "P36", "P37", "P38"] := by
        rw [show f + 26 = (f + 25) + 1 from by omega]
        exact lookup_step_one_parent badReg (f + 25) "P38" "m" "P39" ["P0", "P1", "P2", "P3", "P4", "P5", "P6", "P7", "P8", "P9", "P10", "P11", "P12", "P13", "P14", "P15", "P16", "P17", "P18", "P19", "P20", "P21", "P22", "P23", "P24", "P25", "P26", "P27", "P28", "P29", "P30", "P31", "P32", "P33", "P34", "P35", "P36", "P37"]
          (by decide) (by decide) (by decide) (by decide)
    _ = oop_lookup_method_in badReg (f + 24) "P40" "m" ["P0", "P1", "P2", "P3", "P4", "P5", "P6", "P7", "P8", "P9", "P10", "P11", "P12", "P13", "P14", "P15", "P16", "P17", "P18", "P19", "P20", "P21", "P22", "P23", "P24", "P25", "P26", "P27", "P28", "P29", "P30", "P31", "P32", "P33", "P34", "P35", "P36", "P37", "P38", "P39"] := by
        rw [show f + 25 = (f + 24) + 1 from by omega]
        exact lookup_step_one_parent badReg (f + 24) "P39" "m" "P40" ["P0", "P1", "P2", "P3", "P4", "P5", "P6", "P7", "P8", "P9", "P10", "P11", "P12", "P13", "P14", "P15", "P16", "P17", "P18", "P19", "P20", "P21", "P22", "P23", "P24", "P25", "P26", "P27", "P28", "P29", "P30", "P31", "P32", "P33", "P34", "P35", "P36", "P37", "P38"]
          (by decide) (by decide) (by decide) (by decide)
    _ = oop_lookup_method_in badReg (f + 23) "P41" "m" ["P0", "P1", "P2", "P3", "P4", "P5", "P6", "P7", "P8", "P9", "P10", "P11", "P12", "P13", "P14", "P15", "P16", "P17", "P18", "P19", "P20", "P21", "P22", "P23", "P24", "P25", "P26", "P27", "P28", "P29", "P30", "P31", "P32", "P33", "P34", "P35", "P36", "P37", "P38", "P39", "P40"] := by
        rw [show f + 24 = (f + 23) + 1 from by omega]
        exact lookup_step_one_parent badReg (f + 23) "P40" "m" "P41" ["P0", "P1", "P2", "P3", "P4", "P5", "P6", "P7", "P8", "P9", "P10", "P11", "P12", "P13", "P14", "P15", "P16", "P17", "P18", "P19", "P20", "P21", "P22", "P23", "P24", "P25", "P26", "P27", "P28", "P29", "P30", "P31", "P32", "P33", "P34", "P35", "P36", "P37", "P38", "P39"]
          (by decide) (by decide) (by decide) (by decide)
    _ = oop_lookup_method_in badReg (f + 22) "P42" "m" ["P0", "P1", "P2", "P3", "P4", "P5", "P6", "P7", "P8", "P9", "P10", "P11", "P12", "P13", "P14", "P15", "P16", "P17", "P18", "P19", "P20", "P21", "P22", "P23", "P24", "P25", "P26", "P27", "P28", "P29", "P30", "P31", "P32", "P33", "P34", "P35", "P36", "P37", "P38", "P39", "P40", "P41"] := by
        rw [show f + 23 = (f + 22) + 1 from by omega]
        exact lookup_step_one_parent badReg (f + 22) "P41" "m" "P42" ["P0", "P1", "P2", "P3", "P4", "P5", "P6", "P7", "P8", "P9", "P10", "P11", "P12", "P13", "P14", "P15", "P16", "P17", "P18", "P19", "P20", "P21", "P22", "P23", "P24", "P25", "P26", "P27", "P28", "P29", "P30", "P31", "P32", "P33", "P34", "P35", "P36", "P37", "P38", "P39", "P40"]
          (by decide) (by decide) (by decide) (by decide)
    _ = oop_lookup_method_in badReg (f + 21) "P43" "m" ["P0", "P1", "P2", "P3", "P4", "P5", "P6", "P7", "P8", "P9", "P10", "P11", "P12", "P13", "P14", "P15", "P16", "P17", "P18", "P19", "P20", "P21", "P22", "P23", "P24", "P25", "P26", "P27", "P28", "P29", "P30", "P31", "P32", "P33", "P34", "P35", "P36", "P37", "P38", "P39", "P40", "P41", "P42"] := by
        rw [show f + 22 = (f + 21) + 1 from by omega]
        exact lookup_step_one_parent badReg (f + 21) "P42" "m" "P43" ["P0", "P1", "P2", "P3", "P4", "P5", "P6", "P7", "P8", "P9", "P10", "P11", "P12", "P13", "P14", "P15", "P16", "P17", "P18", "P19", "P20", "P21", "P22", "P23", "P24", "P25", "P26", "P27", "P28", "P29", "P30", "P31", "P32", "P33", "P34", "P35", "P36", "P37", "P38", "P39", "P40", "P41"]
          (by decide) (by decide) (by decide) (by decide)
    _ = oop_lookup_method_in badReg (f + 20) "P44" "m" ["P0", "P1", "P2", "P3", "P4", "P5", "P6", "P7", "P8", "P9", "P10", "P11", "P12", "P13", "P14", "P15", "P16", "P17", "P18", "P19", "P20", "P21", "P22", "P23", "P24", "P25", "P26", "P27", "P28", "P29", "P30", "P31", "P32", "P33", "P34", "P35", "P36", "P37", "P38", "P39", "P40", "P41", "P42", "P43"] := by
        rw [show f + 21 = (f + 20) + 1 from by omega]
        exact lookup_step_one_parent badReg (f + 20) "P43" "m" "P44" ["P0", "P1", "P2", "P3", "P4", "P5", "P6", "P7", "P8", "P9", "P10", "P11", "P12", "P13", "P14", "P15", "P16", "P17", "P18", "P19", "P20", "P21", "P22", "P23", "P24", "P25", "P26", "P27", "P28", "P29", "P30", "P31", "P32", "P33", "P34", "P35", "P36", "P37", "P38", "P39", "P40", "P41", "P42"]
          (by decide) (by decide) (by decide) (by decide)
    _ = oop_lookup_method_in badReg (f + 19) "P45" "m" ["P0", "P1", "P2", "P3", "P4", "P5", "P6", "P7", "P8", "P9", "P10", "P11", "P12", "P13", "P14", "P15", "P16", "P17", "P18", "P19", "P20", "P21", "P22", "P23", "P24", "P25", "P26", "P27", "P28", "P29", "P30", "P31", "P32", "P33", "P34", "P35", "P36", "P37", "P38", "P39", "P40", "P41", "P42", "P43", "P44"] := by
        rw [show f + 20 = (f + 19) + 1 from by omega]
        exact lookup_step_one_parent badReg (f + 19) "P44" "m" "P45" ["P0", "P1", "P2", "P3", "P4", "P5", "P6", "P7", "P8", "P9", "P10", "P11", "P12", "P13", "P14", "P15", "P16", "P17", "P18", "P19", "P20", "P21", "P22", "P23", "P24", "P25", "P26", "P27", "P28", "P29", "P30", "P31", "P32", "P33", "P34", "P35", "P36", "P37", "P38", "P39", "P40", "P41", "P42", "P43"]
          (by decide) (by decide) (by decide) (by decide)
    _ = oop_lookup_method_in badReg (f + 18) "P46" "m" ["P0", "P1", "P2", "P3", "P4", "P5", "P6", "P7", "P8", "P9", "P10", "P11", "P12", "P13", "P14", "P15", "P16", "P17", "P18", "P19", "P20", "P21", "P22", "P23", "P24", "P25", "P26", "P27", "P28", "P29", "P30", "P31", "P32", "P33", "P34", "P35", "P36", "P37", "P38", "P39", "P40", "P41", "P42", "P43", "P44", "P45"] := by
        rw [show f + 19 = (f + 18) + 1 from by omega]
        exact lookup_step_one_parent badReg (f + 18) "P45" "m" "P46" ["P0", "P1", "P2", "P3", "P4", "P5", "P6", "P7", "P8", "P9", "P10", "P11", "P12", "P13", "P14", "P15", "P16", "P17", "P18", "P19", "P20", "P21", "P22", "P23", "P24", "P25", "P26", "P27", "P28", "P29", "P30", "P31", "P32", "P33", "P34", "P35", "P36", "P37", "P38", "P39", "P40", "P41", "P42", "P43", "P44"]
          (by decide) (by decide) (by decide) (by decide)
    _ = oop_lookup_method_in badReg (f + 17) "P47" "m" ["P0", "P1", "P2", "P3", "P4", "P5", "P6", "P7", "P8", "P9", "P10", "P11", "P12", "P13", "P14", "P15", "P16", "P17", "P18", "P19", "P20", "P21", "P22", "P23", "P24", "P25", "P26", "P27", "P28", "P29", "P30", "P31", "P32", "P33", "P34", "P35", "P36", "P37", "P38", "P39", "P40", "P41", "P42", "P43", "P44", "P45", "P46"] := by
        rw [show f + 18 = (f + 17) + 1 from by omega]
        exact lookup_step_one_parent badReg (f + 17) "P46" "m" "P47" ["P0", "P1", "P2", "P3", "P4", "P5", "P6", "P7", "P8", "P9", "P10", "P11", "P12", "P13", "P14", "P15", "P16", "P17", "P18", "P19", "P20", "P21", "P22", "P23", "P24", "P25", "P26", "P27", "P28", "P29", "P30", "P31", "P32", "P33", "P34", "P35", "P36", "P37", "P38", "P39", "P40", "P41", "P42", "P43", "P44", "P45"]
          (by decide) (by decide) (by decide) (by decide)
    _ = oop_lookup_method_in badReg (f + 16) "P48" "m" ["P0", "P1", "P2", "P3", "P4", "P5", "P6", "P7", "P8", "P9", "P10", "P11", "P12", "P13", "P14", "P15", "P16", "P17", "P18", "P19", "P20", "P21", "P22", "P23", "P24", "P25", "P26", "P27", "P28", "P29", "P30", "P31", "P32", "P33", "P34", "P35", "P36", "P37", "P38", "P39", "P40", "P41", "P42", "P43", "P44", "P45", "P46", "P47"] := by
        rw [show f + 17 = (f + 16) + 1 from by omega]
        exact lookup_step_one_parent badReg (f + 16) "P47" "m" "P48" ["P0", "P1", "P2", "P3", "P4", "P5", "P6", "P7", "P8", "P9", "P10", "P11", "P12", "P13", "P14", "P15", "P16", "P17", "P18", "P19", "P20", "P21", "P22", "P23", "P24", "P25", "P26", "P27", "P28", "P29", "P30", "P31", "P32", "P33", "P34", "P35", "P36", "P37", "P38", "P39", "P40", "P41", "P42", "P43", "P44", "P45", "P46"]
          (by decide) (by decide) (by decide) (by decide)
    _ = oop_lookup_method_in badReg (f + 15) "P49" "m" ["P0", "P1", "P2", "P3", "P4", "P5", "P6", "P7", "P8", "P9", "P10", "P11", "P12", "P13", "P14", "P15", "P16", "P17", "P18", "P19", "P20", "P21", "P22", "P23", "P24", "P25", "P26", "P27", "P28", "P29", "P30", "P31", "P32", "P33", "P34", "P35", "P36", "P37", "P38", "P39", "P40", "P41", "P42", "P43", "P44", "P45", "P46", "P47", "P48"] := by
        rw [show f + 16 = (f + 15) + 1 from by omega]
        exact lookup_step_one_parent badReg (f + 15) "P48" "m" "P49" ["P0", "P1", "P2", "P3", "P4", "P5", "P6", "P7", "P8", "P9", "P10", "P11", "P12", "P13", "P14", "P15", "P16", "P17", "P18", "P19", "P20", "P21", "P22", "P23", "P24", "P25", "P26", "P27", "P28", "P29", "P30", "P31", "P32", "P33", "P34", "P35", "P36", "P37", "P38", "P39", "P40", "P41", "P42", "P43", "P44", "P45", "P46", "P47"]
          (by decide) (by decide) (by decide) (by decide)
    _ = oop_lookup_method_in badReg (f + 14) "P50" "m" ["P0", "P1", "P2", "P3", "P4", "P5", "P6", "P7", "P8", "P9", "P10", "P11", "P12", "P13", "P14", "P15", "P16", "P17", "P18", "P19", "P20", "P21", "P22", "P23", "P24", "P25", "P26", "P27", "P28", "P29", "P30", "P31", "P32", "P33", "P34", "P35", "P36", "P37", "P38", "P39", "P40", "P41", "P42", "P43", "P44", "P45", "P46", "P47", "P48", "P49"] := by
        rw [show f + 15 = (f + 14) + 1 from by omega]
        exact lookup_step_one_parent badReg (f + 14) "P49" "m" "P50" ["P0", "P1", "P2", "P3", "P4", "P5", "P6", "P7", "P8", "P9", "P10", "P11", "P12", "P13", "P14", "P15", "P16", "P17", "P18", "P19", "P20", "P21", "P22", "P23", "P24", "P25", "P26", "P27", "P28", "P29", "P30", "P31", "P32", "P33", "P34", "P35", "P36", "P37", "P38", "P39", "P40", "P41", "P42", "P43", "P44", "P45", "P46", "P47", "P48"]
          (by decide) (by decide) (by decide) (by decide)
    _ = oop_lookup_method_in badReg (f + 13) "P51" "m" ["P0", "P1", "P2", "P3", "P4", "P5", "P6", "P7", "P8", "P9", "P10", "P11", "P12", "P13", "P14", "P15", "P16", "P17", "P18", "P19", "P20", "P21", "P22", "P23", "P24", "P25", "P26", "P27", "P28", "P29", "P30", "P31", "P32", "P33", "P34", "P35", "P36", "P37", "P38", "P39", "P40", "P41", "P42", "P43", "P44", "P45", "P46", "P47", "P48", "P49", "P50"] := by
        rw [show f + 14 = (f + 13) + 1 from by omega]
        exact lookup_step_one_parent badReg (f + 13) "P50" "m" "P51" ["P0", "P1", "P2", "P3", "P4", "P5", "P6", "P7", "P8", "P9", "P10", "P11", "P12", "P13", "P14", "P15", "P16", "P17", "P18", "P19", "P20", "P21", "P22", "P23", "P24", "P25", "P26", "P27", "P28", "P29", "P30", "P31", "P32", "P33", "P34", "P35", "P36", "P37", "P38", "P39", "P40", "P41", "P42", "P43", "P44", "P45", "P46", "P47", "P48", "P49"]
          (by decide) (by decide) (by decide) (by decide)
    _ = oop_lookup_method_in badReg (f + 12) "P52" "m" ["P0", "P1", "P2", "P3", "P4", "P5", "P6", "P7", "P8", "P9", "P10", "P11", "P12", "P13", "P14", "P15", "P16", "P17", "P18", "P19", "P20", "P21", "P22", "P23", "P24", "P25", "P26", "P27", "P28", "P29", "P30", "P31", "P32", "P33", "P34", "P35", "P36", "P37", "P38", "P39", "P40", "P41", "P42", "P43", "P44", "P45", "P46", "P47", "P48", "P49", "P50", "P51"] := by
        rw [show f + 13 = (f + 12) + 1 from by omega]
        exact lookup_step_one_parent badReg (f + 12) "P51" "m" "P52" ["P0", "P1", "P2", "P3", "P4", "P5", "P6", "P7", "P8", "P9", "P10", "P11", "P12", "P13", "P14", "P15", "P16", "P17", "P18", "P19", "P20", "P21", "P22", "P23", "P24", "P25", "P26", "P27", "P28", "P29", "P30", "P31", "P32", "P33", "P34", "P35", "P36", "P37", "P38", "P39", "P40", "P41", "P42", "P43", "P44", "P45", "P46", "P47", "P48", "P49", "P50"]
          (by decide) (by decide) (by decide) (by decide)
    _ = oop_lookup_method_in badReg (f + 11) "P53" "m" ["P0", "P1", "P2", "P3", "P4", "P5", "P6", "P7", "P8", "P9", "P10", "P11", "P12", "P13", "P14", "P15", "P16", "P17", "P18", "P19", "P20", "P21", "P22", "P23", "P24", "P25", "P26", "P27", "P28", "P29", "P30", "P31", "P32", "P33", "P34", "P35", "P36", "P37", "P38", "P39", "P40", "P41", "P42", "P43", "P44", "P45", "P46", "P47", "P48", "P49", "P50", "P51", "P52"] := by
        rw [show f + 12 = (f + 11) + 1 from by omega]
        exact lookup_step_one_parent badReg (f + 11) "P52" "m" "P53" ["P0", "P1", "P2", "P3", "P4", "P5", "P6", "P7", "P8", "P9", "P10", "P11", "P12", "P13", "P14", "P15", "P16", "P17", "P18", "P19", "P20", "P21", "P22", "P23", "P24", "P25", "P26", "P27", "P28", "P29", "P30", "P31", "P32", "P33", "P34", "P35", "P36", "P37", "P38", "P39", "P40", "P41", "P42", "P43", "P44", "P45", "P46", "P47", "P48", "P49", "P50", "P51"]
          (by decide) (by decide) (by decide) (by decide)
    _ = oop_lookup_method_in badReg (f + 10) "P54" "m" ["P0", "P1", "P2", "P3", "P4", "P5", "P6", "P7", "P8", "P9", "P10", "P11", "P12", "P13", "P14", "P15", "P16", "P17", "P18", "P19", "P20", "P21", "P22", "P23", "P24", "P25", "P26", "P27", "P28", "P29", "P30", "P31", "P32", "P33", "P34", "P35", "P36", "P37", "P38", "P39", "P40", "P41", "P42", "P43", "P44", "P45", "P46", "P47", "P48", "P49", "P50", "P51", "P52", "P53"] := by
        rw [show f + 11 = (f + 10) + 1 from by omega]
        exact lookup_step_one_parent badReg (f + 10) "P53" "m" "P54" ["P0", "P1", "P2", "P3", "P4", "P5", "P6", "P7", "P8", "P9", "P10", "P11", "P12", "P13", "P14", "P15", "P16", "P17", "P18", "P19", "P20", "P21", "P22", "P23", "P24", "P25", "P26", "P27", "P28", "P29", "P30", "P31", "P32", "P33", "P34", "P35", "P36", "P37", "P38", "P39", "P40", "P41", "P42", "P43", "P44", "P45", "P46", "P47", "P48", "P49", "P50", "P51", "P52"]
          (by decide) (by decide) (by decide) (by decide)
    _ = oop_lookup_method_in badReg (f + 9) "P55" "m" ["P0", "P1", "P2", "P3", "P4", "P5", "P6", "P7", "P8", "P9", "P10", "P11", "P12", "P13", "P14", "P15", "P16", "P17", "P18", "P19", "P20", "P21", "P22", "P23", "P24", "P25", "P26", "P27", "P28", "P29", "P30", "P31", "P32", "P33", "P34", "P35", "P36", "P37", "P38", "P39", "P40", "P41", "P42", "P43", "P44", "P45", "P46", "P47", "P48", "P49", "P50", "P51", "P52", "P53", "P54"] := by
        rw [show f + 10 = (f + 9) + 1 from by omega]
        exact lookup_step_one_parent badReg (f + 9) "P54" "m" "P55" ["P0", "P1", "P2", "P3", "P4", "P5", "P6", "P7", "P8", "P9", "P10", "P11", "P12", "P13", "P14", "P15", "P16", "P17", "P18", "P19", "P20", "P21", "P22", "P23", "P24", "P25", "P26", "P27", "P28", "P29", "P30", "P31", "P32", "P33", "P34", "P35", "P36", "P37", "P38", "P39", "P40", "P41", "P42", "P43", "P44", "P45", "P46", "P47", "P48", "P49", "P50", "P51", "P52", "P53"]
          (by decide) (by decide) (by decide) (by decide)
    _ = oop_lookup_method_in badReg (f + 8) "P56" "m" ["P0", "P1", "P2", "P3", "P4", "P5", "P6", "P7", "P8", "P9", "P10", "P11", "P12", "P13", "P14", "P15", "P16", "P17", "P18", "P19", "P20", "P21", "P22", "P23", "P24", "P25", "P26", "P27", "P28", "P29", "P30", "P31", "P32", "P33", "P34", "P35", "P36", "P37", "P38", "P39", "P40", "P41", "P42", "P43", "P44", "P45", "P46", "P47", "P48", "P49", "P50", "P51", "P52", "P53", "P54", "P55"] := by
        rw [show f + 9 = (f + 8) + 1 from by omega]
        exact lookup_step_one_parent badReg (f + 8) "P55" "m" "P56" ["P0", "P1", "P2", "P3", "P4", "P5", "P6", "P7", "P8", "P9", "P10", "P11", "P12", "P13", "P14", "P15", "P16", "P17", "P18", "P19", "P20", "P21", "P22", "P23", "P24", "P25", "P26", "P27", "P28", "P29", "P30", "P31", "P32", "P33", "P34", "P35", "P36", "P37", "P38", "P39", "P40", "P41", "P42", "P43", "P44", "P45", "P46", "P47", "P48", "P49", "P50", "P51", "P52", "P53", "P54"]
          (by decide) (by decide) (by decide) (by decide)
    _ = oop_lookup_method_in badReg (f + 7) "P57" "m" ["P0", "P1", "P2", "P3", "P4", "P5", "P6", "P7", "P8", "P9", "P10", "P11", "P12", "P13", "P14", "P15", "P16", "P17", "P18", "P19", "P20", "P21", "P22", "P23", "P24", "P25", "P26", "P27", "P28", "P29", "P30", "P31", "P32", "P33", "P34", "P35", "P36", "P37", "P38", "P39", "P40", "P41", "P42", "P43", "P44", "P45", "P46", "P47", "P48", "P49", "P50", "P51", "P52", "P53", "P54", "P55", "P56"] := by
        rw [show f + 8 = (f + 7) + 1 from by omega]
        exact lookup_step_one_parent badReg (f + 7) "P56" "m" "P57" ["P0", "P1", "P2", "P3", "P4", "P5", "P6", "P7", "P8", "P9", "P10", "P11", "P12", "P13", "P14", "P15", "P16", "P17", "P18", "P19", "P20", "P21", "P22", "P23", "P24", "P25", "P26", "P27", "P28", "P29", "P30", "P31", "P32", "P33", "P34", "P35", "P36", "P37", "P38", "P39", "P40", "P41", "P42", "P43", "P44", "P45", "P46", "P47", "P48", "P49", "P50", "P51", "P52", "P53", "P54", "P55"]
          (by decide) (by decide) (by decide) (by decide)
    _ = oop_lookup_method_in badReg (f + 6) "P58" "m" ["P0", "P1", "P2", "P3", "P4", "P5", "P6", "P7", "P8", "P9", "P10", "P11", "P12", "P13", "P14", "P15", "P16", "P17", "P18", "P19", "P20", "P21", "P22", "P23", "P24", "P25", "P26", "P27", "P28", "P29", "P30", "P31", "P32", "P33", "P34", "P35", "P36", "P37", "P38", "P39", "P40", "P41", "P42", "P43", "P44", "P45", "P46", "P47", "P48", "P49", "P50", "P51", "P52", "P53", "P54", "P55", "P56", "P57"] := by
        rw [show f + 7 = (f + 6) + 1 from by omega]
        exact lookup_step_one_parent badReg (f + 6) "P57" "m" "P58" ["P0", "P1", "P2", "P3", "P4", "P5", "P6", "P7", "P8", "P9", "P10", "P11", "P12", "P13", "P14", "P15", "P16", "P17", "P18", "P19", "P20", "P21", "P22", "P23", "P24", "P25", "P26", "P27", "P28", "P29", "P30", "P31", "P32", "P33", "P34", "P35", "P36", "P37", "P38", "P39", "P40", "P41", "P42", "P43", "P44", "P45", "P46", "P47", "P48", "P49", "P50", "P51", "P52", "P53", "P54", "P55", "P56"]
          (by decide) (by decide) (by decide) (by decide)
    _ = oop_lookup_method_in badReg (f + 5) "P59" "m" ["P0", "P1", "P2", "P3", "P4", "P5", "P6", "P7", "P8", "P9", "P10", "P11", "P12", "P13", "P14", "P15", "P16", "P17", "P18", "P19", "P20", "P21", "P22", "P23", "P24", "P25", "P26", "P27", "P28", "P29", "P30", "P31", "P32", "P33", "P34", "P35", "P36", "P37", "P38", "P39", "P40", "P41", "P42", "P43", "P44", "P45", "P46", "P47", "P48", "P49", "P50", "P51", "P52", "P53", "P54", "P55", "P56", "P57", "P58"] := by
        rw [show f + 6 = (f + 5) + 1 from by omega]
        exact lookup_step_one_parent badReg (f + 5) "P58" "m" "P59" ["P0", "P1", "P2", "P3", "P4", "P5", "P6", "P7", "P8", "P9", "P10", "P11", "P12", "P13", "P14", "P15", "P16", "P17", "P18", "P19", "P20", "P21", "P22", "P23", "P24", "P25", "P26", "P27", "P28", "P29", "P30", "P31", "P32", "P33", "P34", "P35", "P36", "P37", "P38", "P39", "P40", "P41", "P42", "P43", "P44", "P45", "P46", "P47", "P48", "P49", "P50", "P51", "P52", "P53", "P54", "P55", "P56", "P57"]
          (by decide) (by decide) (by decide) (by decide)
    _ = oop_lookup_method_in badReg (f + 4) "P60" "m" ["P0", "P1", "P2", "P3", "P4", "P5", "P6", "P7", "P8", "P9", "P10", "P11", "P12", "P13", "P14", "P15", "P16", "P17", "P18", "P19", "P20", "P21", "P22", "P23", "P24", "P25", "P26", "P27", "P28", "P29", "P30", "P31", "P32", "P33", "P34", "P35", "P36", "P37", "P38", "P39", "P40", "P41", "P42", "P43", "P44", "P45", "P46", "P47", "P48", "P49", "P50", "P51", "P52", "P53", "P54", "P55", "P56", "P57", "P58", "P59"] := by
        rw [show f + 5 = (f + 4) + 1 from by omega]
        exact lookup_step_one_parent badReg (f + 4) "P59" "m" "P60" ["P0", "P1", "P2", "P3", "P4", "P5", "P6", "P7", "P8", "P9", "P10", "P11", "P12", "P13", "P14", "P15", "P16", "P17", "P18", "P19", "P20", "P21", "P22", "P23", "P24", "P25", "P26", "P27", "P28", "P29", "P30", "P31", "P32", "P33", "P34", "P35", "P36", "P37", "P38", "P39", "P40", "P41", "P42", "P43", "P44", "P45", "P46", "P47", "P48", "P49", "P50", "P51", "P52", "P53", "P54", "P55", "P56", "P57", "P58"]
          (by decide) (by decide) (by decide) (by decide)
    _ = oop_lookup_method_in badReg (f + 3) "P61" "m" ["P0", "P1", "P2", "P3", "P4", "P5", "P6", "P7", "P8", "P9", "P10", "P11", "P12", "P13", "P14", "P15", "P16", "P17", "P18", "P19", "P20", "P21", "P22", "P23", "P24", "P25", "P26", "P27", "P28", "P29", "P30", "P31", "P32", "P33", "P34", "P35", "P36", "P37", "P38", "P39", "P40", "P41", "P42", "P43", "P44", "P45", "P46", "P47", "P48", "P49", "P50", "P51", "P52", "P53", "P54", "P55", "P56", "P57", "P58", "P59", "P60"] := by
        rw [show f + 4 = (f + 3) + 1 from by omega]
        exact lookup_step_one_parent badReg (f + 3) "P60" "m" "P61" ["P0", "P1", "P2", "P3", "P4", "P5", "P6", "P7", "P8", "P9", "P10", "P11", "P12", "P13", "P14", "P15", "P16", "P17", "P18", "P19", "P20", "P21", "P22", "P23", "P24", "P25", "P26", "P27", "P28", "P29", "P30", "P31", "P32", "P33", "P34", "P35", "P36", "P37", "P38", "P39", "P40", "P41", "P42", "P43", "P44", "P45", "P46", "P47", "P48", "P49", "P50", "P51", "P52", "P53", "P54", "P55", "P56", "P57", "P58", "P59"]
          (by decide) (by decide) (by decide) (by decide)
    _ = oop_lookup_method_in badReg (f + 2) "P62" "m" ["P0", "P1", "P2", "P3", "P4", "P5", "P6", "P7", "P8", "P9", "P10", "P11", "P12", "P13", "P14", "P15", "P16", "P17", "P18", "P19", "P20", "P21", "P22", "P23", "P24", "P25", "P26", "P27", "P28", "P29", "P30", "P31", "P32", "P33", "P34", "P35", "P36", "P37", "P38", "P39", "P40", "P41", "P42", "P43", "P44", "P45", "P46", "P47", "P48", "P49", "P50", "P51", "P52", "P53", "P54", "P55", "P56", "P57", "P58", "P59", "P60", "P61"] := by
        rw [show f + 3 = (f + 2) + 1 from by omega]
        exact lookup_step_one_parent badReg (f + 2) "P61" "m" "P62" ["P0", "P1", "P2", "P3", "P4", "P5", "P6", "P7", "P8", "P9", "P10", "P11", "P12", "P13", "P14", "P15", "P16", "P17", "P18", "P19", "P20", "P21", "P22", "P23", "P24", "P25", "P26", "P27", "P28", "P29", "P30", "P31", "P32", "P33", "P34", "P35", "P36", "P37", "P38", "P39", "P40", "P41", "P42", "P43", "P44", "P45", "P46", "P47", "P48", "P49", "P50", "P51", "P52", "P53", "P54", "P55", "P56", "P57", "P58", "P59", "P60"]
          (by decide) (by decide) (by decide) (by decide)
    _ = oop_lookup_method_in badReg (f + 1) "P63" "m" ["P0", "P1", "P2", "P3", "P4", "P5", "P6", "P7", "P8", "P9", "P10", "P11", "P12", "P13", "P14", "P15", "P16", "P17", "P18", "P19", "P20", "P21", "P22", "P23", "P24", "P25", "P26", "P27", "P28", "P29", "P30", "P31", "P32", "P33", "P34", "P35", "P36", "P37", "P38", "P39", "P40", "P41", "P42", "P43", "P44", "P45", "P46", "P47", "P48", "P49", "P50", "P51", "P52", "P53", "P54", "P55", "P56", "P57", "P58", "P59", "P60", "P61", "P62"] := by
        rw [show f + 2 = (f + 1) + 1 from by omega]
        exact lookup_step_one_parent badReg (f + 1) "P62" "m" "P63" ["P0", "P1", "P2", "P3", "P4", "P5", "P6", "P7", "P8", "P9", "P10", "P11", "P12", "P13", "P14", "P15", "P16", "P17", "P18", "P19", "P20", "P21", "P22", "P23", "P24", "P25", "P26", "P27", "P28", "P29", "P30", "P31", "P32", "P33", "P34", "P35", "P36", "P37", "P38", "P39", "P40", "P41", "P42", "P43", "P44", "P45", "P46", "P47", "P48", "P49", "P50", "P51", "P52", "P53", "P54", "P55", "P56", "P57", "P58", "P59", "P60", "P61"]
          (by decide) (by decide) (by decide) (by decide)
    _ = oop_lookup_method_in badReg f "X" "m" visP := by
        exact lookup_step_one_parent badReg (f) "P63" "m" "X" ["P0", "P1", "P2", "P3", "P4", "P5", "P6", "P7", "P8", "P9", "P10", "P11", "P12", "P13", "P14", "P15", "P16", "P17", "P18", "P19", "P20", "P21", "P22", "P23", "P24", "P25", "P26", "P27", "P28", "P29", "P30", "P31", "P32", "P33", "P34", "P35", "P36", "P37", "P38", "P39", "P40", "P41", "P42", "P43", "P44", "P45", "P46", "P47", "P48", "P49", "P50", "P51", "P52", "P53", "P54", "P55", "P56", "P57", "P58", "P59", "P60", "P61", "P62"]
          (by decide) (by decide) (by decide) (by decide)

/-- C5 (counterexample): on the registry badReg — 66 packages, all within
    the C capacity limits, whose inheritance graph has a cycle reachable
    only after 64 distinct packages have been visited — method lookup never
    returns: no recursion depth whatsoever completes
    oop_lookup_method(\"P0\", \"m\").  The claim's \"lookup terminates for
    every registered package graph, including graphs containing inheritance
    cycles\" is false: the visited-set guard stops recording after 64 names. -/
theorem C5_lookup_nontermination :
    ¬ ∃ (fuel : Nat) (res : Option Nat),
        oop_lookup_method badReg fuel "P0" "m" = some res := by
  rintro ⟨fuel, res, hres⟩
  obtain ⟨pair, hp, _⟩ := Option.map_eq_some'.mp hres
  have hmore := oop_lookup_method_in_mono_le badReg "m"
    (Nat.le_add_right fuel 64) "P0" [] pair hp
  rw [badReg_chain fuel] at hmore
  rw [(badReg_loop fuel visP (by decide) (by decide) (by decide)).1] at hmore
  exact Option.noConfusion hmore

/-- A duplicate-free list of names drawn from a universe is no longer than
    the universe's set of distinct names. -/
theorem nodup_subset_length_le {vis univ : List String} (hn : vis.Nodup)
    (hs : ∀ x ∈ vis, x ∈ univ) : vis.length ≤ univ.dedup.length := by
  have h1 : vis.toFinset.card = vis.length := List.toFinset_card_of_nodup hn
  have h2 : univ.toFinset.card = univ.dedup.length := List.card_toFinset univ
  have h3 : vis.toFinset ⊆ univ.toFinset := by
    intro a ha
    rw [List.mem_toFinset] at ha ⊢
    exact hs a ha
  calc vis.length = vis.toFinset.card := h1.symm
    _ ≤ univ.toFinset.card := Finset.card_le_card h3
    _ = univ.dedup.length := h2

/-- Parents of registered packages lie in the name universe. -/
theorem parents_mem_regNames {reg : Registry} {start : String} {p : OopPackage}
    (hp : p ∈ reg) : ∀ par ∈ p.parents, par ∈ regNames reg start := by
  intro par hpar
  unfold regNames
  apply List.mem_cons_of_mem
  exact List.mem_flatten.mpr
    ⟨p.name :: p.parents, List.mem_map_of_mem _ hp, List.mem_cons_of_mem _ hpar⟩

/-- While at most 64 distinct names exist at all, the 64-entry cap on the
    visited array never binds: the C lookup computes exactly what the
    spec's uncapped visited-set DFS computes, it finishes, and its visited
    array stays a duplicate-free subset of the name universe. -/
theorem lookup_eq_spec_main (reg : Registry) (start meth : String)
    (hcard : (regNames reg start).dedup.length ≤ 64) :
    ∀ (fuel : Nat) (pkg : String) (vis : List String),
      (pkg ∈ regNames reg start ∨ pkg = "") →
      vis.Nodup → (∀ x ∈ vis, x ∈ regNames reg start) →
      (regNames reg start).dedup.length + 1 ≤ fuel + vis.length →
      ∃ (v2 : List String) (r : Option Nat),
        oop_lookup_method_in reg fuel pkg meth vis = some (v2, r) ∧
        spec_lookup_method_in reg fuel pkg meth vis = some (v2, r) ∧
        v2.Nodup ∧ (∀ x ∈ v2, x ∈ regNames reg start) ∧ vis.length ≤ v2.length := by
  intro fuel
  induction fuel with
  | zero =>
    intro pkg vis _ hnd hsub hfuel
    exfalso
    have := nodup_subset_length_le hnd hsub
    omega
  | succ f ih =>
    intro pkg vis hpkg hnd hsub hfuel
    by_cases hpe : pkg = ""
    · refine ⟨vis, none, ?_, ?_, hnd, hsub, le_rfl⟩
      · rw [oop_lookup_method_in_succ, if_pos hpe]
      · rw [spec_lookup_method_in_succ, if_pos hpe]
    · by_cases hmem : pkg ∈ vis
      · refine ⟨vis, none, ?_, ?_, hnd, hsub, le_rfl⟩
        · rw [oop_lookup_method_in_succ, if_neg hpe, if_pos hmem]
        · rw [spec_lookup_method_in_succ, if_neg hpe, if_pos hmem]
      · have hpkgU : pkg ∈ regNames reg start := hpkg.resolve_right hpe
        have hndApp : (vis ++ [pkg]).Nodup := by
          rw [List.nodup_append]
          exact ⟨hnd, List.nodup_singleton pkg,
            fun x hx hp => hmem ((List.mem_singleton.mp hp) ▸ hx)⟩
        have hsubApp : ∀ x ∈ vis ++ [pkg], x ∈ regNames reg start := by
          intro x hx
          rcases List.mem_append.mp hx with h1 | h2
          · exact hsub x h1
          · rw [List.mem_singleton.mp h2]
            exact hpkgU
        have hlenApp : vis.length + 1 ≤ (regNames reg start).dedup.length := by
          have := nodup_subset_length_le hndApp hsubApp
          simpa using this
        have hlt : vis.length < 64 := by omega
        cases hfind : oop_find_package reg pkg with
        | none =>
          refine ⟨vis ++ [pkg], none, ?_, ?_, hndApp, hsubApp, by simp⟩
          · rw [oop_lookup_method_in_succ, if_neg hpe, if_neg hmem]
            simp only [hfind, if_pos hlt]
          · rw [spec_lookup_method_in_succ, if_neg hpe, if_neg hmem]
            simp only [hfind]
        | some p =>
          have hpmem : p ∈ reg := List.mem_of_find?_eq_some hfind
          cases hfm : findMethod p meth with
          | some fM =>
            refine ⟨vis ++ [pkg], some fM, ?_, ?_, hndApp, hsubApp, by simp⟩
            · rw [oop_lookup_method_in_succ, if_neg hpe, if_neg hmem]
              simp only [hfind, hfm, if_pos hlt]
            · rw [spec_lookup_method_in_succ, if_neg hpe, if_neg hmem]
              simp only [hfind, hfm]
          | none =>
            have FOLD : ∀ ps : List String,
                (∀ par ∈ ps, par ∈ regNames reg start) →
                ∀ visA : List String, visA.Nodup →
                  (∀ x ∈ visA, x ∈ regNames reg start) →
                  (regNames reg start).dedup.length + 1 ≤ f + visA.length →
                  ∃ (v2 : List String) (r : Option Nat),
                    ps.foldl (lookupFoldStep
                      (fun par v => oop_lookup_method_in reg f par meth v))
                      (some (visA, none)) = some (v2, r) ∧
                    ps.foldl (lookupFoldStep
                      (fun par v => spec_lookup_method_in reg f par meth v))
                      (some (visA, none)) = some (v2, r) ∧
                    v2.Nodup ∧ (∀ x ∈ v2, x ∈ regNames reg start) ∧
                    visA.length ≤ v2.length := by
              intro ps
              induction ps with
              | nil =>
                intro _ visA hA1 hA2 _
                exact ⟨visA, none, rfl, rfl, hA1, hA2, le_rfl⟩
              | cons par rest ihp =>
                intro hps visA hA1 hA2 hA3
                obtain ⟨vB, rB, hB1, hB2, hBnd, hBsub, hBlen⟩ :=
                  ih par visA (Or.inl (hps par (List.mem_cons_self _ _))) hA1 hA2 hA3
                cases rB with
                | some fB =>
                  refine ⟨vB, some fB, ?_, ?_, hBnd, hBsub, hBlen⟩
                  · rw [List.foldl_cons,
                      show lookupFoldStep
                        (fun par v => oop_lookup_method_in reg f par meth v)
                        (some (visA, none)) par =
                        oop_lookup_method_in reg f par meth visA from rfl, hB1]
                    exact lookupFoldStep_found _ rest vB fB
                  · rw [List.foldl_cons,
                      show lookupFoldStep
                        (fun par v => spec_lookup_method_in reg f par meth v)
                        (some (visA, none)) par =
                        spec_lookup_method_in reg f par meth visA from rfl, hB2]
                    exact lookupFoldStep_found _ rest vB fB
                | none =>
                  obtain ⟨vC, rC, hC1, hC2, hCnd, hCsub, hClen⟩ :=
                    ihp (fun q hq => hps q (List.mem_cons_of_mem _ hq)) vB hBnd hBsub
                      (by omega)
                  refine ⟨vC, rC, ?_, ?_, hCnd, hCsub, le_trans hBlen hClen⟩
                  · rw [List.foldl_cons,
                      show lookupFoldStep
                        (fun par v => oop_lookup_method_in reg f par meth v)
                        (some (visA, none)) par =
                        oop_lookup_method_in reg f par meth visA from rfl, hB1]
                    exact hC1
                  · rw [List.foldl_cons,
                      show lookupFoldStep
                        (fun par v => spec_lookup_method_in reg f par meth v)
                        (some (visA, none)) par =
                        spec_lookup_method_in reg f par meth visA from rfl, hB2]
                    exact hC2
            obtain ⟨v2, r, hky1, hky2, h3, h4, h5⟩ :=
              FOLD p.parents (parents_mem_regNames hpmem) (vis ++ [pkg]) hndApp
                hsubApp (by simp only [List.length_append, List.length_cons,
                  List.length_nil]; omega)
            refine ⟨v2, r, ?_, ?_, h3, h4, ?_⟩
            · rw [oop_lookup_method_in_succ, if_neg hpe, if_neg hmem]
              simp only [hfind, hfm, if_pos hlt]
              exact hky1
            · rw [spec_lookup_method_in_succ, if_neg hpe, if_neg hmem]
              simp only [hfind, hfm]
              exact hky2
            · simp only [List.length_append, List.length_cons, List.length_nil] at h5
              omega

/-- C5 (amended): for every registry whose universe of involved names (the
    start package, all registered names, all parent names) has at most 64
    distinct elements — the capacity of the visited array — method lookup
    terminates (depth 66 completes it and every deeper budget returns the
    same answer) and returns exactly what the spec's depth-first,
    left-to-right, visited-set-guarded search returns; beyond 64 distinct
    names a cycle can escape the guard and the lookup need not terminate
    (see the counterexample). -/
theorem C5_lookup_amended (reg : Registry) (start meth : String)
    (hcard : (regNames reg start).dedup.length ≤ 64) :
    oop_lookup_method reg 66 start meth = spec_lookup_method reg 66 start meth ∧
    (oop_lookup_method reg 66 start meth).isSome = true ∧
    (∀ fuel, 66 ≤ fuel →
      oop_lookup_method reg fuel start meth = oop_lookup_method reg 66 start meth) := by
  obtain ⟨v2, r, h1, h2, _, _, _⟩ :=
    lookup_eq_spec_main reg start meth hcard 66 start []
      (Or.inl (by unfold regNames; exact List.mem_cons_self _ _))
      List.nodup_nil (by intro x hx; simp at hx)
      (by simp only [List.length_nil]; omega)
  refine ⟨?_, ?_, ?_⟩
  · show (oop_lookup_method_in reg 66 start meth []).map Prod.snd =
      (spec_lookup_method_in reg 66 start meth []).map Prod.snd
    rw [h1, h2]
  · show ((oop_lookup_method_in reg 66 start meth []).map Prod.snd).isSome = true
    rw [h1]
    rfl
  · intro fuel hf
    have hm := oop_lookup_method_in_mono_le reg meth hf start [] (v2, r) h1
    show (oop_lookup_method_in reg fuel start meth []).map Prod.snd =
      (oop_lookup_method_in reg 66 start meth []).map Prod.snd
    rw [hm, h1]

/-- Witness for C5's amended theorem on the diamond registry. -/
theorem C5_lookup_amended_witness :
    (regNames diamondReg "D").dedup.length ≤ 64 ∧
    (oop_lookup_method diamondReg 66 "D" "m" =
       spec_lookup_method diamondReg 66 "D" "m" ∧
     (oop_lookup_method diamondReg 66 "D" "m").isSome = true ∧
     (∀ fuel, 66 ≤ fuel →
       oop_lookup_method diamondReg fuel "D" "m" =
         oop_lookup_method diamondReg 66 "D" "m")) :=
  ⟨by decide, C5_lookup_amended diamondReg "D" "m" (by decide)⟩
